import Mathlib

/-!
# UChain output and DID-detail codec

A shallow embedding of `output` (src/src/UChain/bitcoin/chain/output.cpp) and
`did_detail` (src/src/UChainService/txs/did/did_detail.cpp) together with the
byte-level reader and writer they are written against.

Bytes are natural numbers; a byte string is well formed when every entry is
below 256.  A `std::string` is the list of its bytes.

Beside the codec the file covers the validity predicate of an output, the
three symbol rules, the projections and accessors over the attachment, the
cross-check of the attachment address against the script address, and the
validity predicate, the setters and the order of `did_detail`.  A call that can
throw (`boost::get` on a variant holding another alternative) or hit a failed
`BITCOIN_ASSERT` returns an `Except`.
-/

set_option maxRecDepth 8192

namespace UChain

/-! ## Primitive codec -/

/-- Little-endian bytes of `v`, exactly `n` of them (the higher bytes are dropped). -/
def to_little_endian : Nat → Nat → List Nat
  | 0, _ => []
  | n + 1, v => (v % 256) :: to_little_endian n (v / 256)

/-- Value of a little-endian byte list. -/
def from_little_endian : List Nat → Nat
  | [] => 0
  | b :: bs => b + 256 * from_little_endian bs

/-- Modelled from the spec: the `reader` of the primitive codec (istream_reader,
its header and implementation are not part of the sources at hand).  It is a
sequential source over the bytes not yet consumed with a sticky error flag that
a short read sets; once set every later read fails too. -/
structure reader where
  data : List Nat
  failed : Bool
deriving DecidableEq, Repr

namespace reader

/-- Modelled from the spec: `static_cast<bool>(source)`, true while no read ran short. -/
def ok (r : reader) : Bool := !r.failed

/-- Modelled from the spec: `read_bytes(n)`; a short read sets the sticky flag,
exhausts the source and yields no bytes. -/
def read_bytes (r : reader) (n : Nat) : List Nat × reader :=
  if r.failed then ([], r)
  else if n ≤ r.data.length then (r.data.take n, { data := r.data.drop n, failed := false })
  else ([], { data := [], failed := true })

/-- Modelled from the spec: fixed-width little-endian read of `n` bytes. -/
def read_little_endian (r : reader) (n : Nat) : Nat × reader :=
  let (bs, r1) := r.read_bytes n
  (from_little_endian bs % 256 ^ n, r1)

/-- Modelled from the spec: `read_u8`. -/
def read_byte (r : reader) : Nat × reader := r.read_little_endian 1

/-- Modelled from the spec: `read_u16_le`. -/
def read_2_bytes_little_endian (r : reader) : Nat × reader := r.read_little_endian 2

/-- Modelled from the spec: `read_u32_le`. -/
def read_4_bytes_little_endian (r : reader) : Nat × reader := r.read_little_endian 4

/-- Modelled from the spec: `read_u64_le`. -/
def read_8_bytes_little_endian (r : reader) : Nat × reader := r.read_little_endian 8

/-- Modelled from the spec: `read_var_uint`, the Bitcoin-style compact size of
1, 3, 5 or 9 bytes selected by the first byte. -/
def read_variable_uint_little_endian (r : reader) : Nat × reader :=
  let (v, r1) := r.read_byte
  if v = 0xff then r1.read_8_bytes_little_endian
  else if v = 0xfe then r1.read_4_bytes_little_endian
  else if v = 0xfd then r1.read_2_bytes_little_endian
  else (v, r1)

/-- Modelled from the spec: `read_string`, a compact-size length followed by
that many bytes. -/
def read_string (r : reader) : List Nat × reader :=
  let (size, r1) := r.read_variable_uint_little_endian
  r1.read_bytes size

end reader

/-- Modelled from the spec: the `writer` of the primitive codec (ostream_writer,
not part of the sources at hand), an append-only sink; the state is the bytes
written so far. -/
abbrev writer := List Nat

namespace writer

/-- Modelled from the spec: raw byte write. -/
def write_bytes (w : writer) (bs : List Nat) : writer := w ++ bs

/-- Modelled from the spec: `write_u64_le`. -/
def write_8_bytes_little_endian (w : writer) (v : Nat) : writer :=
  write_bytes w (to_little_endian 8 v)

/-- Modelled from the spec: compact-size write, the shortest of the 1, 3, 5 and
9 byte forms that holds the value. -/
def write_variable_uint_little_endian (w : writer) (v : Nat) : writer :=
  if v < 0xfd then write_bytes w [v]
  else if v ≤ 0xffff then write_bytes (write_bytes w [0xfd]) (to_little_endian 2 v)
  else if v ≤ 0xffffffff then write_bytes (write_bytes w [0xfe]) (to_little_endian 4 v)
  else write_bytes (write_bytes w [0xff]) (to_little_endian 8 v)

/-- Modelled from the spec: `string := compact_size(n) || n bytes`. -/
def write_string (w : writer) (s : List Nat) : writer :=
  write_bytes (write_variable_uint_little_endian w s.length) s

end writer

/-! ## did_detail -/

/-- The record of did_detail.cpp: two strings. -/
structure did_detail where
  symbol : List Nat
  address : List Nat
deriving DecidableEq, Repr

namespace did_detail

/-- `did_detail::reset`. -/
def reset (_self : did_detail) : did_detail :=
  { symbol := [], address := [] }

/-- `did_detail::from_data(reader&)`: the flag returned, the object and the
source afterwards. -/
def from_data (self : did_detail) (source : reader) : Bool × did_detail × reader :=
  let self := self.reset
  let (sym, source) := source.read_string
  let self := { self with symbol := sym }
  let (addr, source) := source.read_string
  let self := { self with address := addr }
  let result := source.ok
  let self := if !result then self.reset else self
  (result, self, source)

/-- `did_detail::from_data(const data_chunk&)`. -/
def from_data_chunk (self : did_detail) (data : List Nat) : Bool × did_detail × reader :=
  from_data self { data := data, failed := false }

/-- `did_detail::to_data(writer&)`. -/
def to_data_sink (self : did_detail) (sink : writer) : writer :=
  let sink := writer.write_string sink self.symbol
  writer.write_string sink self.address

/-- `did_detail::to_data()`. -/
def to_data (self : did_detail) : List Nat :=
  to_data_sink self []

/-- `did_detail::count_size`, a `uint32_t`. -/
def count_size (self : did_detail) : Nat :=
  (self.symbol.length + self.address.length + 2) % 2 ^ 32

/-- `did_detail::serialized_size`; `DID_DETAIL_FIX_SIZE` is declared in a header
that is not part of the sources at hand and is taken as a parameter. -/
def serialized_size (DID_DETAIL_FIX_SIZE : Nat) (self : did_detail) : Nat :=
  let len := self.count_size
  min DID_DETAIL_FIX_SIZE len

end did_detail

/-! ## Collaborators of `output` -/

/-- `script::parse_mode`, the policy passed to the script decoder. -/
inductive parse_mode where
  | strict
  | raw_data
  | raw_data_fallback
deriving DecidableEq, Repr

/-- Modelled from the spec: the script collaborator (chain::script is not part
of the sources at hand): `reset` is the canonical empty script that
`script.reset()` leaves, `from_data` decodes from a reader into the object
(prefix flag and parse mode as passed by the caller), `to_data` gives the bytes
the script appends to a sink, `serialized_size` and `is_valid` are its own. -/
structure script_ops (S : Type) where
  reset : S
  from_data : S → reader → Bool → parse_mode → Bool × S × reader
  to_data : S → Bool → List Nat
  serialized_size : S → Bool → Nat
  is_valid : S → Bool

/-- Modelled from the spec: the attachment collaborator (the attachment envelope
is not part of the sources at hand), with the same capability set. -/
structure attachment_ops (A : Type) where
  reset : A
  from_data : A → reader → Bool × A × reader
  to_data : A → List Nat
  serialized_size : A → Nat
  is_valid : A → Bool

/-- Modelled from the spec: a script as its raw bytes, `Script := varbytes`
when prefix-framed; without the prefix the rest of the source is the script.
Under `raw_data_fallback` the bytes are kept whatever they hold, so only a
short read makes the decode fail. -/
def varbytes_script : script_ops (List Nat) where
  reset := []
  from_data := fun _self source pfx _mode =>
    let (raw, source) :=
      if pfx then
        let (size, source) := source.read_variable_uint_little_endian
        source.read_bytes size
      else source.read_bytes source.data.length
    if source.ok then (true, raw, source) else (false, [], source)
  to_data := fun self pfx =>
    if pfx then writer.write_bytes (writer.write_variable_uint_little_endian [] self.length) self
    else self
  serialized_size := fun self pfx =>
    if pfx then (writer.write_variable_uint_little_endian [] self.length).length + self.length
    else self.length
  is_valid := fun self => !self.isEmpty

/-- Modelled from the spec: the attachment envelope of a payload-free variant
below the DID version threshold, `u32_le(type) || u32_le(version)`; the state
is the pair (type, version), the reset envelope (0, 0) being the invalid one. -/
def plain_attachment : attachment_ops (Nat × Nat) where
  reset := (0, 0)
  from_data := fun _self source =>
    let (type, source) := source.read_4_bytes_little_endian
    let (version, source) := source.read_4_bytes_little_endian
    if source.ok then (true, (type, version), source) else (false, (0, 0), source)
  to_data := fun self => to_little_endian 4 self.1 ++ to_little_endian 4 self.2
  serialized_size := fun _self => 8
  is_valid := fun self => self.1 != 0

/-! ## output -/

/-- The record of output.cpp: a 64-bit value, a script and an attachment. -/
structure output (S A : Type) where
  value : Nat
  script : S
  attach_data : A
deriving DecidableEq, Repr

namespace output

variable {S A : Type}

/-- `output::reset`. -/
def reset (so : script_ops S) (ao : attachment_ops A) (_self : output S A) : output S A :=
  { value := 0, script := so.reset, attach_data := ao.reset }

/-- `output::from_data(reader&)`: the flag returned, the object and the source
afterwards. -/
def from_data (so : script_ops S) (ao : attachment_ops A) (self : output S A)
    (source : reader) : Bool × output S A × reader :=
  let self := reset so ao self
  let (v, source) := source.read_8_bytes_little_endian
  let self := { self with value := v }
  let result := source.ok
  let (result, self, source) :=
    if result then
      let (r, s, src) := so.from_data self.script source true parse_mode.raw_data_fallback
      (r, { self with script := s }, src)
    else (result, self, source)
  let (result, self, source) :=
    if result then
      let (r, a, src) := ao.from_data self.attach_data source
      (r, { self with attach_data := a }, src)
    else (result, self, source)
  let self := if !result then reset so ao self else self
  (result, self, source)

/-- `output::from_data(const data_chunk&)`. -/
def from_data_chunk (so : script_ops S) (ao : attachment_ops A) (self : output S A)
    (data : List Nat) : Bool × output S A × reader :=
  from_data so ao self { data := data, failed := false }

/-- `output::to_data(writer&)`. -/
def to_data_sink (so : script_ops S) (ao : attachment_ops A) (self : output S A)
    (sink : writer) : writer :=
  let sink := writer.write_8_bytes_little_endian sink self.value
  let sink := writer.write_bytes sink (so.to_data self.script true)
  writer.write_bytes sink (ao.to_data self.attach_data)

/-- `output::to_data()`. -/
def to_data (so : script_ops S) (ao : attachment_ops A) (self : output S A) : List Nat :=
  to_data_sink so ao self []

/-- `output::serialized_size`, a `uint64_t`. -/
def serialized_size (so : script_ops S) (ao : attachment_ops A) (self : output S A) : Nat :=
  (8 + so.serialized_size self.script true + ao.serialized_size self.attach_data) % 2 ^ 64

end output

/-! ## Constants, character classes and the attachment data model -/

/-- Constants of headers that are not part of the sources at hand (size limits,
the transaction version of the nova feature, attachment type tags, status
tags), taken as parameters, together with the test `is_token_secondaryissue`
makes on the flags byte of a token detail, which the spec leaves open. -/
structure constants where
  TOKEN_DETAIL_SYMBOL_FIX_SIZE : Nat
  DID_DETAIL_SYMBOL_FIX_SIZE : Nat
  TOKEN_MIT_SYMBOL_FIX_SIZE : Nat
  check_nova_feature : Nat
  UCN_TYPE : Nat
  UCN_AWARD_TYPE : Nat
  TOKEN_TYPE : Nat
  MESSAGE_TYPE : Nat
  DID_TYPE : Nat
  TOKEN_CERT_TYPE : Nat
  TOKEN_MIT_TYPE : Nat
  TOKEN_DETAIL_TYPE : Nat
  TOKEN_TRANSFERABLE_TYPE : Nat
  DID_DETAIL_TYPE : Nat
  DID_TRANSFERABLE_TYPE : Nat
  secondaryissue_flags : Nat → Bool

/-- The seven attachment type tags are pairwise distinct. -/
def constants.tags_distinct (c : constants) : Prop :=
  [c.UCN_TYPE, c.UCN_AWARD_TYPE, c.TOKEN_TYPE, c.MESSAGE_TYPE, c.DID_TYPE,
    c.TOKEN_CERT_TYPE, c.TOKEN_MIT_TYPE].Nodup

instance (c : constants) : Decidable c.tags_distinct := by
  unfold constants.tags_distinct
  infer_instance

/-- Sample values of the constants for concrete instances; the spec gives
TOKEN_TYPE = 2 and TOKEN_TRANSFERABLE_TYPE = 2, the others are chosen. -/
def sample_constants : constants where
  TOKEN_DETAIL_SYMBOL_FIX_SIZE := 64
  DID_DETAIL_SYMBOL_FIX_SIZE := 64
  TOKEN_MIT_SYMBOL_FIX_SIZE := 64
  check_nova_feature := 4
  UCN_TYPE := 0
  UCN_AWARD_TYPE := 1
  TOKEN_TYPE := 2
  MESSAGE_TYPE := 3
  DID_TYPE := 4
  TOKEN_CERT_TYPE := 5
  TOKEN_MIT_TYPE := 6
  TOKEN_DETAIL_TYPE := 1
  TOKEN_TRANSFERABLE_TYPE := 2
  DID_DETAIL_TYPE := 1
  DID_TRANSFERABLE_TYPE := 2
  secondaryissue_flags := fun flags => decide (128 ≤ flags)

/-- `std::isdigit` in the "C" locale, on the byte value of the character. -/
def isdigit (ch : Nat) : Bool := decide (48 ≤ ch) && decide (ch ≤ 57)

/-- `std::isupper` in the "C" locale. -/
def isupper (ch : Nat) : Bool := decide (65 ≤ ch) && decide (ch ≤ 90)

/-- `std::islower` in the "C" locale. -/
def islower (ch : Nat) : Bool := decide (97 ≤ ch) && decide (ch ≤ 122)

/-- `std::isalnum` in the "C" locale: a letter or a digit; no byte above 127 is
one. -/
def isalnum (ch : Nat) : Bool := isupper ch || islower ch || isdigit ch

/-- `std::toupper` in the "C" locale. -/
def toupper (ch : Nat) : Nat := if islower ch then ch - 32 else ch

/-- `boost::to_upper_copy`, character by character. -/
def to_upper_copy (s : List Nat) : List Nat := s.map toupper

/-- What a call can raise instead of returning: `boost::bad_get` from
`boost::get` on a variant that holds another alternative, or a failed
`BITCOIN_ASSERT`. -/
inductive failure where
  | bad_get
  | assertion
deriving DecidableEq, Repr

deriving instance DecidableEq for Except

/-- Modelled from the spec: `TokenDetail` of the data model (its class is not
part of the sources at hand). -/
structure token_detail where
  symbol : List Nat
  maximum_supply : Nat
  decimal_number : Nat
  threshold : Nat
  issuer : List Nat
  address : List Nat
  description : List Nat
  flags : Nat
deriving DecidableEq, Repr

/-- Modelled from the spec: `is_secondary_issue`, derived from the flags. -/
def token_detail.is_token_secondaryissue (c : constants) (self : token_detail) : Bool :=
  c.secondaryissue_flags self.flags

/-- Modelled from the spec: `TokenTransfer` of the data model. -/
structure token_transfer where
  symbol : List Nat
  quantity : Nat
deriving DecidableEq, Repr

/-- Modelled from the spec: `TokenCert` of the data model. -/
structure token_cert where
  symbol : List Nat
  owner : List Nat
  address : List Nat
  cert_type : Nat
  status : Nat
deriving DecidableEq, Repr

/-- Modelled from the spec: `TokenMIT` of the data model. -/
structure token_mit where
  symbol : List Nat
  address : List Nat
  status : Nat
  content : List Nat
deriving DecidableEq, Repr

/-- Modelled from the spec: the payload of a `Token`, one of detail and
transfer. -/
inductive token_data_type where
  | detail (d : token_detail)
  | transfer (t : token_transfer)
deriving DecidableEq, Repr

/-- Modelled from the spec: `Token`, a status tag over detail or transfer. -/
structure token where
  status : Nat
  data : token_data_type
deriving DecidableEq, Repr

/-- Modelled from the spec: `DID`, a status tag over a `DidDetail`. -/
structure did where
  status : Nat
  data : did_detail
deriving DecidableEq, Repr

/-- Modelled from the spec: the payload of an attachment, one of the seven
variants; the fields of the coin, award and message payloads are not described
and output.cpp reads none of them. -/
inductive attachment_data_type where
  | ucn
  | ucn_award
  | token (t : token)
  | message
  | did (d : did)
  | token_cert (c : token_cert)
  | token_mit (m : token_mit)
deriving DecidableEq, Repr

/-- Modelled from the spec: `Attachment` of the data model, a type tag, a
version, the two DID hints and the payload. -/
structure attachment where
  type : Nat
  version : Nat
  from_did : List Nat
  to_did : List Nat
  attach : attachment_data_type
deriving DecidableEq, Repr

/-- `boost::get<token>` on the payload of an attachment. -/
def boost_get_token : attachment_data_type → Except failure token
  | .token t => .ok t
  | _ => .error failure.bad_get

/-- `boost::get<did>` on the payload of an attachment. -/
def boost_get_did : attachment_data_type → Except failure did
  | .did d => .ok d
  | _ => .error failure.bad_get

/-- `boost::get<token_cert>` on the payload of an attachment. -/
def boost_get_token_cert : attachment_data_type → Except failure token_cert
  | .token_cert c => .ok c
  | _ => .error failure.bad_get

/-- `boost::get<token_mit>` on the payload of an attachment. -/
def boost_get_token_mit : attachment_data_type → Except failure token_mit
  | .token_mit m => .ok m
  | _ => .error failure.bad_get

/-- `boost::get<token_detail>` on the payload of a token. -/
def boost_get_token_detail : token_data_type → Except failure token_detail
  | .detail d => .ok d
  | _ => .error failure.bad_get

/-- `boost::get<token_transfer>` on the payload of a token. -/
def boost_get_token_transfer : token_data_type → Except failure token_transfer
  | .transfer t => .ok t
  | _ => .error failure.bad_get

/-- Modelled from the spec: the address collaborator, `Address::extract(script)`
and `Address::encoded()`. -/
structure payment_address_ops (S P : Type) where
  extract : S → P
  encoded : P → List Nat

/-- A sample address collaborator for concrete instances: the script bytes are
the encoded address. -/
def script_bytes_address : payment_address_ops (List Nat) (List Nat) where
  extract := fun script => script
  encoded := fun address => address

/-- The error codes `check_attachment_address` returns. -/
inductive error where
  | success
  | token_address_not_match
  | did_address_not_match
deriving DecidableEq, Repr

/-! ## output: validity, symbol rules and projections -/

namespace output

variable {S A P C : Type}

/-- `output::is_valid_symbol`; `is_sensitive` is the lookup of the wallet-symbol
collaborator. -/
def is_valid_symbol (c : constants) (is_sensitive : List Nat → Bool) (symbol : List Nat)
    (tx_version : Nat) : Bool :=
  if symbol.isEmpty then false
  else if symbol.length > c.TOKEN_DETAIL_SYMBOL_FIX_SIZE then false
  else if !(symbol.all (fun i => isalnum i || i == 46)) then false
  else if tx_version ≥ c.check_nova_feature then
    if symbol != to_upper_copy symbol then false
    else if is_sensitive symbol then false
    else true
  else true

/-- `output::is_valid_did_symbol`. -/
def is_valid_did_symbol (c : constants) (is_sensitive : List Nat → Bool) (symbol : List Nat)
    (check_sensitive : Bool) : Bool :=
  if symbol.isEmpty then false
  else if symbol.length > c.DID_DETAIL_SYMBOL_FIX_SIZE then false
  else if !(symbol.all (fun i => isalnum i || i == 46 || i == 64 || i == 95 || i == 45))
    then false
  else if check_sensitive then
    let symbolupper := to_upper_copy symbol
    if is_sensitive symbolupper then false else true
  else true

/-- `output::is_valid_mit_symbol`. -/
def is_valid_mit_symbol (c : constants) (is_sensitive : List Nat → Bool) (symbol : List Nat)
    (check_sensitive : Bool) : Bool :=
  if symbol.isEmpty then false
  else if symbol.length > c.TOKEN_MIT_SYMBOL_FIX_SIZE then false
  else if !(symbol.all (fun i => isalnum i || i == 46 || i == 64 || i == 95 || i == 45))
    then false
  else if check_sensitive then
    let upper := to_upper_copy symbol
    if is_sensitive upper then false else true
  else true

/-- `output::is_valid`. -/
def is_valid (so : script_ops S) (ao : attachment_ops A) (self : output S A) : Bool :=
  (self.value != 0) || so.is_valid self.script || ao.is_valid self.attach_data

/-- `output::get_script_address`. -/
def get_script_address (pa : payment_address_ops S P) (self : output S attachment) : List Nat :=
  let payment_address := pa.extract self.script
  pa.encoded payment_address

/-- `output::get_token_amount`. -/
def get_token_amount (c : constants) (self : output S attachment) : Except failure Nat :=
  if self.attach_data.type = c.TOKEN_TYPE then do
    let token_info ← boost_get_token self.attach_data.attach
    if token_info.status = c.TOKEN_DETAIL_TYPE then do
      let detail_info ← boost_get_token_detail token_info.data
      pure detail_info.maximum_supply
    else if token_info.status = c.TOKEN_TRANSFERABLE_TYPE then do
      let trans_info ← boost_get_token_transfer token_info.data
      pure trans_info.quantity
    else pure 0
  else pure 0

/-- `output::is_token_transfer`. -/
def is_token_transfer (c : constants) (self : output S attachment) : Except failure Bool :=
  if self.attach_data.type = c.TOKEN_TYPE then do
    let token_info ← boost_get_token self.attach_data.attach
    pure (decide (token_info.status = c.TOKEN_TRANSFERABLE_TYPE))
  else pure false

/-- `output::is_did_transfer`. -/
def is_did_transfer (c : constants) (self : output S attachment) : Except failure Bool :=
  if self.attach_data.type = c.DID_TYPE then do
    let did_info ← boost_get_did self.attach_data.attach
    pure (decide (did_info.status = c.DID_TRANSFERABLE_TYPE))
  else pure false

/-- `output::is_token_issue`. -/
def is_token_issue (c : constants) (self : output S attachment) : Except failure Bool :=
  if self.attach_data.type = c.TOKEN_TYPE then do
    let token_info ← boost_get_token self.attach_data.attach
    if token_info.status = c.TOKEN_DETAIL_TYPE then do
      let detail_info ← boost_get_token_detail token_info.data
      pure (!detail_info.is_token_secondaryissue c)
    else pure false
  else pure false

/-- `output::is_token_secondaryissue`. -/
def is_token_secondaryissue (c : constants) (self : output S attachment) :
    Except failure Bool :=
  if self.attach_data.type = c.TOKEN_TYPE then do
    let token_info ← boost_get_token self.attach_data.attach
    if token_info.status = c.TOKEN_DETAIL_TYPE then do
      let detail_info ← boost_get_token_detail token_info.data
      pure (detail_info.is_token_secondaryissue c)
    else pure false
  else pure false

/-- `output::is_token_mit`. -/
def is_token_mit (c : constants) (self : output S attachment) : Bool :=
  decide (self.attach_data.type = c.TOKEN_MIT_TYPE)

/-- `output::is_token_cert`. -/
def is_token_cert (c : constants) (self : output S attachment) : Bool :=
  decide (self.attach_data.type = c.TOKEN_CERT_TYPE)

/-- `output::is_token`. -/
def is_token (c : constants) (self : output S attachment) : Bool :=
  decide (self.attach_data.type = c.TOKEN_TYPE)

/-- `output::is_did`. -/
def is_did (c : constants) (self : output S attachment) : Bool :=
  decide (self.attach_data.type = c.DID_TYPE)

/-- `output::is_ucn`. -/
def is_ucn (c : constants) (self : output S attachment) : Bool :=
  decide (self.attach_data.type = c.UCN_TYPE)

/-- `output::is_ucn_award`. -/
def is_ucn_award (c : constants) (self : output S attachment) : Bool :=
  decide (self.attach_data.type = c.UCN_AWARD_TYPE)

/-- `output::is_message`. -/
def is_message (c : constants) (self : output S attachment) : Bool :=
  decide (self.attach_data.type = c.MESSAGE_TYPE)

/-- `output::get_token_address`. -/
def get_token_address (c : constants) (self : output S attachment) :
    Except failure (List Nat) :=
  if is_token c self then do
    let token_info ← boost_get_token self.attach_data.attach
    if token_info.status = c.TOKEN_DETAIL_TYPE then do
      let detail_info ← boost_get_token_detail token_info.data
      pure detail_info.address
    else pure []
  else if is_token_mit c self then do
    let token_info ← boost_get_token_mit self.attach_data.attach
    pure token_info.address
  else pure []

/-- `output::get_token_cert_address`. -/
def get_token_cert_address (c : constants) (self : output S attachment) :
    Except failure (List Nat) :=
  if is_token_cert c self then do
    let cert_info ← boost_get_token_cert self.attach_data.attach
    pure cert_info.address
  else pure []

/-- `output::is_did_register`. -/
def is_did_register (c : constants) (self : output S attachment) : Except failure Bool :=
  if self.attach_data.type = c.DID_TYPE then do
    let did_info ← boost_get_did self.attach_data.attach
    pure (decide (did_info.status = c.DID_DETAIL_TYPE))
  else pure false

/-- `output::get_did_address`; the data of a `did` is always a `did_detail`. -/
def get_did_address (c : constants) (self : output S attachment) :
    Except failure (List Nat) :=
  if self.attach_data.type = c.DID_TYPE then do
    let did_info ← boost_get_did self.attach_data.attach
    let detail_info := did_info.data
    pure detail_info.address
  else pure []

/-- `output::check_attachment_address`; `||` evaluates its right operand only
when the left one is false, the debug log is left out. -/
def check_attachment_address (c : constants) (pa : payment_address_ops S P)
    (self : output S attachment) (_chain : C) : Except failure error := do
  let is_token := false
  let is_did := false
  let attachment_address : List Nat := []
  let issue ← is_token_issue c self
  let first ←
    if issue then pure true
    else do
      let secondary ← is_token_secondaryissue c self
      if secondary then pure true else pure (is_token_mit c self)
  let (is_token, is_did, attachment_address) ←
    if first then do
      let address ← get_token_address c self
      pure (true, is_did, address)
    else if is_token_cert c self then do
      let address ← get_token_cert_address c self
      pure (true, is_did, address)
    else do
      let register ← is_did_register c self
      let third ← if register then pure true else is_did_transfer c self
      if third then do
        let address ← get_did_address c self
        pure (is_token, true, address)
      else pure (is_token, is_did, attachment_address)
  if is_token || is_did then
    let script_address := get_script_address pa self
    if attachment_address != script_address then
      if is_token then pure error.token_address_not_match
      else if is_did then pure error.did_address_not_match
      else pure error.success
    else pure error.success
  else pure error.success

end output

/-! ## Sample outputs -/

/-- An attachment below the DID version threshold: no DID hints. -/
def attachment.plain (type : Nat) (attach : attachment_data_type) : attachment :=
  { type := type, version := 1, from_did := [], to_did := [], attach := attach }

/-- A transfer of 42 of the token "ABC.X", tagged TOKEN_TYPE = 2 with status
TOKEN_TRANSFERABLE_TYPE = 2, under the script bytes "UCxxxB". -/
def sample_transfer_output : output (List Nat) attachment :=
  { value := 0, script := [85, 67, 120, 120, 120, 66],
    attach_data := attachment.plain 2
      (.token { status := 2,
                data := .transfer { symbol := [65, 66, 67, 46, 88], quantity := 42 } }) }

/-- An issue of the token "ABC.X" with the given flags and declared address,
tagged with the sample TOKEN_TYPE = 2 and status 1, under the script bytes
"UCxxxB". -/
def sample_issue_output (flags : Nat) (address : List Nat) : output (List Nat) attachment :=
  { value := 0, script := [85, 67, 120, 120, 120, 66],
    attach_data := attachment.plain 2
      (.token { status := 1,
                data := .detail { symbol := [65, 66, 67, 46, 88], maximum_supply := 1000,
                                  decimal_number := 2, threshold := 0, issuer := [73],
                                  address := address, description := [], flags := flags } }) }

/-- A DID registration of "A" at the given declared address, tagged with the
sample DID_TYPE = 4 and status 1, under the script bytes "UCxxxB". -/
def sample_did_output (address : List Nat) : output (List Nat) attachment :=
  { value := 0, script := [85, 67, 120, 120, 120, 66],
    attach_data := attachment.plain 4
      (.did { status := 1, data := { symbol := [65], address := address } }) }

/-! ## output: symbol and issuer accessors -/

/-- Modelled from the spec: `BITCOIN_ASSERT`, the debug-assert pattern (the
macro is declared in a header that is not part of the sources at hand).
`assertions` tells whether the build keeps assertions; a kept assertion on a
false expression ends the call, an assertion compiled out does nothing. -/
def BITCOIN_ASSERT (assertions : Bool) (expr : Bool) : Except failure Unit :=
  if assertions && !expr then .error failure.assertion else .ok ()

namespace output

variable {S : Type}

/-- `output::get_token_symbol`. -/
def get_token_symbol (c : constants) (self : output S attachment) :
    Except failure (List Nat) :=
  if is_token c self then do
    let token_info ← boost_get_token self.attach_data.attach
    if token_info.status = c.TOKEN_DETAIL_TYPE then do
      let detail_info ← boost_get_token_detail token_info.data
      pure detail_info.symbol
    else if token_info.status = c.TOKEN_TRANSFERABLE_TYPE then do
      let trans_info ← boost_get_token_transfer token_info.data
      pure trans_info.symbol
    else pure []
  else if is_token_mit c self then do
    let token_info ← boost_get_token_mit self.attach_data.attach
    pure token_info.symbol
  else if is_token_cert c self then do
    let cert_info ← boost_get_token_cert self.attach_data.attach
    pure cert_info.symbol
  else pure []

/-- `output::get_token_issuer`. -/
def get_token_issuer (assertions : Bool) (c : constants) (self : output S attachment) :
    Except failure (List Nat) :=
  if is_token c self then do
    let token_info ← boost_get_token self.attach_data.attach
    if token_info.status = c.TOKEN_DETAIL_TYPE then do
      let detail_info ← boost_get_token_detail token_info.data
      pure detail_info.issuer
    else pure []
  else if is_token_mit c self then do
    BITCOIN_ASSERT assertions false
    pure []
  else pure []

end output

/-- A MIT named "M" at the address "UCxxxB", tagged with the sample
TOKEN_MIT_TYPE = 6, under the script bytes "UCxxxB". -/
def sample_mit_output : output (List Nat) attachment :=
  { value := 0, script := [85, 67, 120, 120, 120, 66],
    attach_data := attachment.plain 6
      (.token_mit { symbol := [77], address := [85, 67, 120, 120, 120, 66], status := 1,
                    content := [] }) }

/-- A certificate on "ABC" at the address "UCxxxB", tagged with the sample
TOKEN_CERT_TYPE = 5, under the script bytes "UCxxxB". -/
def sample_cert_output : output (List Nat) attachment :=
  { value := 0, script := [85, 67, 120, 120, 120, 66],
    attach_data := attachment.plain 5
      (.token_cert { symbol := [65, 66, 67], owner := [79],
                     address := [85, 67, 120, 120, 120, 66], cert_type := 1, status := 1 }) }

/-- A coin output, tagged with the sample UCN_TYPE = 0, under the script bytes
"UCxxxB". -/
def sample_ucn_output : output (List Nat) attachment :=
  { value := 100000, script := [85, 67, 120, 120, 120, 66],
    attach_data := attachment.plain 0 .ucn }

/-! ## did_detail: validity, setters and order -/

/-- `std::string::compare`: negative, zero or positive as the first string is
before, equal to or after the second in the lexicographic order of their bytes,
a proper initial part coming first. -/
def string_compare : List Nat → List Nat → Int
  | [], [] => 0
  | [], _ :: _ => -1
  | _ :: _, [] => 1
  | a :: as, b :: bs =>
    if a < b then -1 else if b < a then 1 else string_compare as bs

namespace did_detail

/-- `did_detail::is_valid`; `DID_DETAIL_FIX_SIZE` is a parameter. -/
def is_valid (DID_DETAIL_FIX_SIZE : Nat) (self : did_detail) : Bool :=
  !(self.symbol.isEmpty || decide (self.count_size > DID_DETAIL_FIX_SIZE))

/-- `did_detail::get_symbol`. -/
def get_symbol (self : did_detail) : List Nat := self.symbol

/-- `did_detail::get_address`. -/
def get_address (self : did_detail) : List Nat := self.address

/-- `did_detail::set_symbol`; `symbol.size() + 1` is a `size_t`, `substr(0, len)`
keeps at most `len` bytes, `DID_DETAIL_SYMBOL_FIX_SIZE` is a parameter. -/
def set_symbol (DID_DETAIL_SYMBOL_FIX_SIZE : Nat) (self : did_detail) (symbol : List Nat) :
    did_detail :=
  let len := min ((symbol.length + 1) % 2 ^ 64) DID_DETAIL_SYMBOL_FIX_SIZE
  { self with symbol := symbol.take len }

/-- `did_detail::set_address`; `DID_DETAIL_ADDRESS_FIX_SIZE` is a parameter. -/
def set_address (DID_DETAIL_ADDRESS_FIX_SIZE : Nat) (self : did_detail) (address : List Nat) :
    did_detail :=
  let len := min ((address.length + 1) % 2 ^ 64) DID_DETAIL_ADDRESS_FIX_SIZE
  { self with address := address.take len }

/-- `did_detail::operator<`. -/
def operator_lt (self other : did_detail) : Bool :=
  let ret := string_compare self.symbol other.symbol
  if ret < 0 || (ret == 0 && string_compare self.address other.address < 0) then true
  else false

end did_detail

/-! ## Specification-side notions -/

/-- The 8-byte little-endian encoding, byte `i` being `v / 256 ^ i % 256`. -/
def LE64 (v : Nat) : List Nat :=
  (List.range 8).map (fun i => v / 256 ^ i % 256)

/-- Every entry of a byte string is a byte. -/
def well_formed (b : List Nat) : Prop := ∀ x ∈ b, x < 256

instance (b : List Nat) : Decidable (well_formed b) := by
  unfold well_formed
  infer_instance

/-- The compact size at the head of `b` is in its shortest form: a 3, 5 or 9
byte form holds a value too large for the shorter ones. -/
def minimal_size_form (b : List Nat) : Bool :=
  match b with
  | [] => true
  | v :: rest =>
    if v = 0xff then decide (0x100000000 ≤ from_little_endian (rest.take 8))
    else if v = 0xfe then decide (0x10000 ≤ from_little_endian (rest.take 4))
    else if v = 0xfd then decide (0xfd ≤ from_little_endian (rest.take 2))
    else true

/-! ## Lemmas on the primitive codec -/

theorem to_little_endian_length (n v : Nat) : (to_little_endian n v).length = n := by
  induction n generalizing v with
  | zero => rfl
  | succ n ih => simp [to_little_endian, ih]

theorem from_to_little_endian (n v : Nat) :
    from_little_endian (to_little_endian n v) = v % 256 ^ n := by
  induction n generalizing v with
  | zero => simp [to_little_endian, from_little_endian, Nat.mod_one]
  | succ n ih =>
    simp only [to_little_endian, from_little_endian, ih]
    rw [pow_succ, Nat.mul_comm (256 ^ n) 256, Nat.mod_mul]

theorem from_little_endian_lt (bs : List Nat) (h : well_formed bs) :
    from_little_endian bs < 256 ^ bs.length := by
  induction bs with
  | nil => simp [from_little_endian]
  | cons b bs ih =>
    have hb : b < 256 := h b (List.mem_cons_self _ _)
    have ih1 := ih (fun x hx => h x (List.mem_cons_of_mem _ hx))
    simp only [from_little_endian, List.length_cons, pow_succ]
    omega

theorem to_from_little_endian (bs : List Nat) (h : well_formed bs) :
    to_little_endian bs.length (from_little_endian bs) = bs := by
  induction bs with
  | nil => rfl
  | cons b bs ih =>
    have hb : b < 256 := h b (List.mem_cons_self _ _)
    have ih1 := ih (fun x hx => h x (List.mem_cons_of_mem _ hx))
    simp only [from_little_endian, List.length_cons, to_little_endian]
    have h1 : (b + 256 * from_little_endian bs) % 256 = b := by omega
    have h2 : (b + 256 * from_little_endian bs) / 256 = from_little_endian bs := by omega
    rw [h1, h2, ih1]

theorem read_bytes_append (s rest : List Nat) :
    reader.read_bytes { data := s ++ rest, failed := false } s.length
      = (s, { data := rest, failed := false }) := by
  simp [reader.read_bytes]

theorem read_little_endian_append (n v : Nat) (rest : List Nat) :
    reader.read_little_endian { data := to_little_endian n v ++ rest, failed := false } n
      = (v % 256 ^ n, { data := rest, failed := false }) := by
  have h := read_bytes_append (to_little_endian n v) rest
  rw [to_little_endian_length] at h
  simp only [reader.read_little_endian, h, from_to_little_endian, Nat.mod_mod]

theorem write_variable_uint_eq (w : writer) (v : Nat) :
    writer.write_variable_uint_little_endian w v
      = w ++ writer.write_variable_uint_little_endian [] v := by
  simp only [writer.write_variable_uint_little_endian, writer.write_bytes]
  split_ifs <;> simp

theorem write_string_eq (w : writer) (s : List Nat) :
    writer.write_string w s = w ++ writer.write_string [] s := by
  simp only [writer.write_string, writer.write_bytes]
  rw [write_variable_uint_eq]
  simp

theorem read_byte_cons (b : Nat) (rest : List Nat) :
    reader.read_byte { data := b :: rest, failed := false }
      = (b % 256, { data := rest, failed := false }) := by
  simp [reader.read_byte, reader.read_little_endian, reader.read_bytes, from_little_endian]

theorem read_variable_uint_append (v : Nat) (rest : List Nat) (hv : v < 2 ^ 64) :
    reader.read_variable_uint_little_endian
        { data := writer.write_variable_uint_little_endian [] v ++ rest, failed := false }
      = (v, { data := rest, failed := false }) := by
  unfold writer.write_variable_uint_little_endian reader.read_variable_uint_little_endian
  simp only [writer.write_bytes, List.nil_append]
  by_cases h1 : v < 0xfd
  · have e1 : v % 256 = v := by omega
    have a1 : ¬ v = 255 := by omega
    have a2 : ¬ v = 254 := by omega
    have a3 : ¬ v = 253 := by omega
    simp only [if_pos h1, List.singleton_append, read_byte_cons, e1, if_neg a1, if_neg a2,
      if_neg a3]
  · by_cases h2 : v ≤ 0xffff
    · have e2 := read_little_endian_append 2 v rest
      have e3 : v % 256 ^ 2 = v := by norm_num; omega
      rw [e3] at e2
      simp only [if_neg h1, if_pos h2, List.singleton_append, List.cons_append, read_byte_cons,
        reader.read_2_bytes_little_endian]
      norm_num
      exact e2
    · by_cases h3 : v ≤ 0xffffffff
      · have e2 := read_little_endian_append 4 v rest
        have e3 : v % 256 ^ 4 = v := by norm_num; omega
        rw [e3] at e2
        simp only [if_neg h1, if_neg h2, if_pos h3, List.singleton_append, List.cons_append,
          read_byte_cons, reader.read_4_bytes_little_endian]
        norm_num
        exact e2
      · have e2 := read_little_endian_append 8 v rest
        have e3 : v % 256 ^ 8 = v := by norm_num; norm_num at hv; omega
        rw [e3] at e2
        simp only [if_neg h1, if_neg h2, if_neg h3, List.singleton_append, List.cons_append,
          read_byte_cons, reader.read_8_bytes_little_endian]
        norm_num
        exact e2

theorem read_string_append (s rest : List Nat) (hs : s.length < 2 ^ 64) :
    reader.read_string { data := writer.write_string [] s ++ rest, failed := false }
      = (s, { data := rest, failed := false }) := by
  simp only [reader.read_string, writer.write_string, writer.write_bytes, List.append_assoc]
  rw [read_variable_uint_append s.length (s ++ rest) hs]
  exact read_bytes_append s rest


theorem read_bytes_failed (r : reader) (n : Nat) (h : r.failed = true) :
    reader.read_bytes r n = ([], r) := by
  simp [reader.read_bytes, h]

theorem read_little_endian_failed (r : reader) (n : Nat) (h : r.failed = true) :
    reader.read_little_endian r n = (0, r) := by
  simp [reader.read_little_endian, read_bytes_failed r n h, from_little_endian]

theorem read_variable_uint_failed (r : reader) (h : r.failed = true) :
    reader.read_variable_uint_little_endian r = (0, r) := by
  simp [reader.read_variable_uint_little_endian, reader.read_byte,
    read_little_endian_failed r 1 h]

theorem read_string_failed (r : reader) (h : r.failed = true) :
    reader.read_string r = ([], r) := by
  simp [reader.read_string, read_variable_uint_failed r h, read_bytes_failed r 0 h]

theorem did_detail_to_data_eq (d : did_detail) :
    did_detail.to_data d = writer.write_string [] d.symbol ++ writer.write_string [] d.address := by
  simp only [did_detail.to_data, did_detail.to_data_sink]
  rw [write_string_eq (writer.write_string [] d.symbol) d.address]

theorem write_variable_uint_length_small (n : Nat) (h : n < 253) :
    (writer.write_variable_uint_little_endian [] n).length = 1 := by
  simp [writer.write_variable_uint_little_endian, writer.write_bytes, h]

theorem write_variable_uint_length_pos (n : Nat) :
    1 ≤ (writer.write_variable_uint_little_endian [] n).length := by
  simp only [writer.write_variable_uint_little_endian, writer.write_bytes]
  split_ifs <;> simp

theorem write_variable_uint_length_large (n : Nat) (h : 253 ≤ n) :
    3 ≤ (writer.write_variable_uint_little_endian [] n).length := by
  have h1 : ¬ n < 0xfd := by omega
  simp only [writer.write_variable_uint_little_endian, writer.write_bytes, if_neg h1]
  split_ifs <;> simp [to_little_endian_length]

theorem did_detail_serialized_size_le (fix : Nat) (d : did_detail) :
    did_detail.serialized_size fix d ≤ d.symbol.length + d.address.length + 2 := by
  simp only [did_detail.serialized_size, did_detail.count_size]
  exact le_trans (Nat.min_le_right _ _) (Nat.mod_le _ _)

theorem read_bytes_ok (l : List Nat) (n : Nat)
    (h : (reader.read_bytes { data := l, failed := false } n).2.failed = false) :
    n ≤ l.length ∧
    reader.read_bytes { data := l, failed := false } n
      = (l.take n, { data := l.drop n, failed := false }) := by
  by_cases hn : n ≤ l.length
  · exact ⟨hn, by simp [reader.read_bytes, hn]⟩
  · simp [reader.read_bytes, hn] at h

theorem well_formed_append_right (a b : List Nat) (h : well_formed (a ++ b)) :
    well_formed b :=
  fun x hx => h x (List.mem_append_right a hx)

theorem well_formed_take (l : List Nat) (n : Nat) (h : well_formed l) :
    well_formed (l.take n) :=
  fun x hx => h x (List.mem_of_mem_take hx)

theorem read_little_endian_ok (l : List Nat) (k : Nat) (hwf : well_formed l)
    (h : (reader.read_little_endian { data := l, failed := false } k).2.failed = false) :
    k ≤ l.length ∧
    reader.read_little_endian { data := l, failed := false } k
      = (from_little_endian (l.take k), { data := l.drop k, failed := false }) ∧
    to_little_endian k (from_little_endian (l.take k)) = l.take k ∧
    from_little_endian (l.take k) < 256 ^ k := by
  have h0 : (reader.read_bytes { data := l, failed := false } k).2.failed = false := h
  obtain ⟨hk, e⟩ := read_bytes_ok l k h0
  have hlen : (l.take k).length = k := by simp [hk]
  have hlt := from_little_endian_lt (l.take k) (well_formed_take l k hwf)
  have hto := to_from_little_endian (l.take k) (well_formed_take l k hwf)
  rw [hlen] at hlt hto
  refine ⟨hk, ?_, hto, hlt⟩
  simp only [reader.read_little_endian, e, Nat.mod_eq_of_lt hlt]

theorem read_variable_uint_canonical (b : List Nat) (hwf : well_formed b)
    (hmin : minimal_size_form b = true)
    (hok : (reader.read_variable_uint_little_endian { data := b, failed := false }).2.failed
      = false) :
    b = writer.write_variable_uint_little_endian []
          (reader.read_variable_uint_little_endian { data := b, failed := false }).1
        ++ (reader.read_variable_uint_little_endian { data := b, failed := false }).2.data := by
  cases b with
  | nil => exact absurd hok (by decide)
  | cons v rest =>
    have hv : v < 256 := hwf v (List.mem_cons_self _ _)
    have hr : well_formed rest := fun x hx => hwf x (List.mem_cons_of_mem _ hx)
    have hv1 : v % 256 = v := Nat.mod_eq_of_lt hv
    simp only [reader.read_variable_uint_little_endian, read_byte_cons, hv1] at hok ⊢
    simp only [minimal_size_form] at hmin
    by_cases c1 : v = 0xff
    · simp only [if_pos c1, reader.read_8_bytes_little_endian] at hok hmin ⊢
      obtain ⟨_, e, hto, _⟩ := read_little_endian_ok rest 8 hr hok
      have hm : 0x100000000 ≤ from_little_endian (rest.take 8) := of_decide_eq_true hmin
      rw [e]
      have n1 : ¬ from_little_endian (rest.take 8) < 0xfd := by omega
      have n2 : ¬ from_little_endian (rest.take 8) ≤ 0xffff := by omega
      have n3 : ¬ from_little_endian (rest.take 8) ≤ 0xffffffff := by omega
      simp only [writer.write_variable_uint_little_endian, writer.write_bytes, if_neg n1,
        if_neg n2, if_neg n3, hto, c1, List.nil_append, List.singleton_append, List.cons_append,
        List.take_append_drop]
    · by_cases c2 : v = 0xfe
      · simp only [if_neg c1, if_pos c2, reader.read_4_bytes_little_endian] at hok hmin ⊢
        obtain ⟨_, e, hto, hlt⟩ := read_little_endian_ok rest 4 hr hok
        have hm : 0x10000 ≤ from_little_endian (rest.take 4) := of_decide_eq_true hmin
        rw [e]
        have n1 : ¬ from_little_endian (rest.take 4) < 0xfd := by omega
        have n2 : ¬ from_little_endian (rest.take 4) ≤ 0xffff := by omega
        have n3 : from_little_endian (rest.take 4) ≤ 0xffffffff := by
          norm_num at hlt; omega
        simp only [writer.write_variable_uint_little_endian, writer.write_bytes, if_neg n1,
          if_neg n2, if_pos n3, hto, c2, List.nil_append, List.singleton_append,
          List.cons_append, List.take_append_drop]
      · by_cases c3 : v = 0xfd
        · simp only [if_neg c1, if_neg c2, if_pos c3, reader.read_2_bytes_little_endian]
            at hok hmin ⊢
          obtain ⟨_, e, hto, hlt⟩ := read_little_endian_ok rest 2 hr hok
          have hm : 0xfd ≤ from_little_endian (rest.take 2) := of_decide_eq_true hmin
          rw [e]
          have n1 : ¬ from_little_endian (rest.take 2) < 0xfd := by omega
          have n2 : from_little_endian (rest.take 2) ≤ 0xffff := by
            norm_num at hlt; omega
          simp only [writer.write_variable_uint_little_endian, writer.write_bytes, if_neg n1,
            if_pos n2, hto, c3, List.nil_append, List.singleton_append, List.cons_append,
            List.take_append_drop]
        · have n1 : v < 0xfd := by omega
          simp only [if_neg c1, if_neg c2, if_neg c3, writer.write_variable_uint_little_endian,
            writer.write_bytes, if_pos n1, List.nil_append, List.singleton_append]

theorem read_string_canonical (b : List Nat) (hwf : well_formed b)
    (hmin : minimal_size_form b = true)
    (hok : (reader.read_string { data := b, failed := false }).2.failed = false) :
    b = writer.write_string [] (reader.read_string { data := b, failed := false }).1
        ++ (reader.read_string { data := b, failed := false }).2.data := by
  have hvar : (reader.read_variable_uint_little_endian { data := b, failed := false }).2.failed
      = false := by
    by_contra hc
    have hc1 : (reader.read_variable_uint_little_endian
        { data := b, failed := false }).2.failed = true := by simpa using hc
    have : (reader.read_string { data := b, failed := false }).2.failed = true := by
      simp only [reader.read_string]
      rw [read_bytes_failed _ _ hc1]
      exact hc1
    rw [this] at hok
    exact absurd hok (by decide)
  have hb := read_variable_uint_canonical b hwf hmin hvar
  generalize hq : reader.read_variable_uint_little_endian { data := b, failed := false } = q
    at hvar hb
  obtain ⟨n, r1⟩ := q
  obtain ⟨d1, f1⟩ := r1
  simp only at hvar hb
  subst hvar
  have hrs : reader.read_string { data := b, failed := false }
      = reader.read_bytes { data := d1, failed := false } n := by
    simp only [reader.read_string, hq]
  rw [hrs] at hok ⊢
  obtain ⟨hn, e⟩ := read_bytes_ok d1 n hok
  rw [e]
  have hlen : (d1.take n).length = n := by simp [hn]
  simp only [writer.write_string, writer.write_bytes, hlen, List.append_assoc,
    List.take_append_drop]
  exact hb

/-! ## did_detail: claims -/

/-- C3: decoding the encoding of a did_detail succeeds, consumes every byte and
gives back the same symbol and address, whatever the object held before; the
string lengths fit the 64-bit size type. -/
theorem did_detail_round_trip (prior d : did_detail)
    (hs : d.symbol.length < 2 ^ 64) (ha : d.address.length < 2 ^ 64) :
    did_detail.from_data_chunk prior (did_detail.to_data d)
      = (true, d, { data := [], failed := false }) := by
  have e2 := read_string_append d.address [] ha
  rw [List.append_nil] at e2
  simp only [did_detail.from_data_chunk, did_detail.from_data, did_detail_to_data_eq,
    read_string_append d.symbol _ hs, e2, reader.ok]
  simp [did_detail.reset]

/-- C3 at the record ("A", "B"). -/
theorem did_detail_round_trip_witness :
    [65].length < 2 ^ 64 ∧ [66].length < 2 ^ 64 ∧
    did_detail.from_data_chunk { symbol := [7], address := [] }
        (did_detail.to_data { symbol := [65], address := [66] })
      = (true, { symbol := [65], address := [66] }, { data := [], failed := false }) :=
  ⟨by decide, by decide,
    did_detail_round_trip { symbol := [7], address := [] } { symbol := [65], address := [66] }
      (by decide) (by decide)⟩

/-- C5 as stated fails: a symbol of 253 bytes and an empty address are written
as 257 bytes, and serialized_size is 257 for no value of DID_DETAIL_FIX_SIZE
(it is at most count_size = 255). -/
theorem did_detail_size_counterexample :
    (did_detail.to_data { symbol := List.replicate 253 65, address := [] }).length = 257 ∧
    ¬ ∃ fix : Nat,
      did_detail.serialized_size fix { symbol := List.replicate 253 65, address := [] } = 257 := by
  have hl : (List.replicate 253 65 : List Nat).length = 253 := List.length_replicate _ _
  constructor
  · simp only [did_detail_to_data_eq, writer.write_string, writer.write_bytes,
      writer.write_variable_uint_little_endian, List.length_append, hl, List.length_nil,
      List.nil_append]
    norm_num [to_little_endian_length]
  · rintro ⟨fix, h⟩
    have h1 := did_detail_serialized_size_le fix
      { symbol := List.replicate 253 65, address := [] }
    rw [h] at h1
    simp only [hl, List.length_nil] at h1
    omega

/-- C5 amended: serialized_size is the number of bytes to_data writes exactly
when both strings are shorter than 253 bytes and |symbol| + |address| + 2 does
not exceed DID_DETAIL_FIX_SIZE; the common value is then |symbol| + |address| + 2. -/
theorem did_detail_size_agreement (fix : Nat) (d : did_detail) :
    (did_detail.serialized_size fix d = (did_detail.to_data d).length ↔
      d.symbol.length < 253 ∧ d.address.length < 253 ∧
        d.symbol.length + d.address.length + 2 ≤ fix) ∧
    (did_detail.serialized_size fix d = (did_detail.to_data d).length →
      (did_detail.to_data d).length = d.symbol.length + d.address.length + 2) := by
  have hlen : (did_detail.to_data d).length
      = (writer.write_variable_uint_little_endian [] d.symbol.length).length + d.symbol.length
        + ((writer.write_variable_uint_little_endian [] d.address.length).length
          + d.address.length) := by
    simp only [did_detail_to_data_eq, writer.write_string, writer.write_bytes,
      List.length_append]
  have hle := did_detail_serialized_size_le fix d
  have hs1 := write_variable_uint_length_pos d.symbol.length
  have ha1 := write_variable_uint_length_pos d.address.length
  have key : did_detail.serialized_size fix d = (did_detail.to_data d).length →
      d.symbol.length < 253 ∧ d.address.length < 253 ∧
        d.symbol.length + d.address.length + 2 ≤ fix := by
    intro h
    have hs : d.symbol.length < 253 := by
      by_contra hc
      have := write_variable_uint_length_large d.symbol.length (by omega)
      omega
    have ha : d.address.length < 253 := by
      by_contra hc
      have := write_variable_uint_length_large d.address.length (by omega)
      omega
    refine ⟨hs, ha, ?_⟩
    rw [hlen, write_variable_uint_length_small _ hs, write_variable_uint_length_small _ ha] at h
    have hc : d.count_size = d.symbol.length + d.address.length + 2 := by
      simp only [did_detail.count_size]
      omega
    simp only [did_detail.serialized_size, hc] at h
    have := Nat.min_le_left fix (d.symbol.length + d.address.length + 2)
    omega
  refine ⟨⟨key, ?_⟩, ?_⟩
  · rintro ⟨hs, ha, hfix⟩
    rw [hlen, write_variable_uint_length_small _ hs, write_variable_uint_length_small _ ha]
    have hc : d.count_size = d.symbol.length + d.address.length + 2 := by
      simp only [did_detail.count_size]
      omega
    simp only [did_detail.serialized_size, hc]
    rw [Nat.min_eq_right hfix]
    omega
  · intro h
    obtain ⟨hs, ha, _⟩ := key h
    rw [hlen, write_variable_uint_length_small _ hs, write_variable_uint_length_small _ ha]
    omega

/-- C5 amended at the record ("A", "B") with a limit of 128: both sides are 4. -/
theorem did_detail_size_agreement_witness :
    did_detail.serialized_size 128 { symbol := [65], address := [66] }
        = (did_detail.to_data { symbol := [65], address := [66] }).length ∧
    (did_detail.to_data { symbol := [65], address := [66] }).length = 4 :=
  ⟨((did_detail_size_agreement 128 { symbol := [65], address := [66] }).1).2
      ⟨by decide, by decide, by decide⟩, by decide⟩

/-- C8: when the reader runs short while reading the symbol string or the
address string, from_data returns false and leaves both strings empty. -/
theorem did_detail_reset_on_short_read (prior : did_detail) (b : List Nat)
    (h : (reader.read_string { data := b, failed := false }).2.failed = true ∨
      (reader.read_string (reader.read_string { data := b, failed := false }).2).2.failed
        = true) :
    (did_detail.from_data_chunk prior b).1 = false ∧
    (did_detail.from_data_chunk prior b).2.1 = { symbol := [], address := [] } := by
  have hf : (reader.read_string (reader.read_string { data := b, failed := false }).2).2.failed
      = true := by
    rcases h with h | h
    · rw [read_string_failed _ h]
      exact h
    · exact h
  simp [did_detail.from_data_chunk, did_detail.from_data, reader.ok, hf, did_detail.reset]

/-- C8 at the bytes 01 41: the symbol "A" is read, the address read runs short,
and the symbol is discarded. -/
theorem did_detail_reset_on_short_read_witness :
    (reader.read_string { data := [1, 65], failed := false }).1 = [65] ∧
    (did_detail.from_data_chunk { symbol := [7], address := [8] } [1, 65]).1 = false ∧
    (did_detail.from_data_chunk { symbol := [7], address := [8] } [1, 65]).2.1
      = { symbol := [], address := [] } :=
  ⟨by decide,
    did_detail_reset_on_short_read { symbol := [7], address := [8] } [1, 65]
      (Or.inr (by decide))⟩


/-- C4 as stated fails: on the bytes FD 00 00 00 from_data succeeds and consumes
every byte (an empty symbol behind a three-byte length, an empty address), and
the decoded record is written back as 00 00. -/
theorem did_detail_canonicity_counterexample :
    did_detail.from_data_chunk { symbol := [], address := [] } [0xfd, 0, 0, 0]
      = (true, { symbol := [], address := [] }, { data := [], failed := false }) ∧
    did_detail.to_data { symbol := [], address := [] } ≠ [0xfd, 0, 0, 0] := by
  decide

/-- C4 amended: for every well-formed byte string on which from_data succeeds
while consuming all of it and in which the two length prefixes (of the symbol
and of the address) are in their shortest compact-size form, to_data of the
decoded record yields exactly those bytes. -/
theorem did_detail_canonicity (prior d : did_detail) (b : List Nat)
    (hwf : well_formed b)
    (hdec : did_detail.from_data_chunk prior b = (true, d, { data := [], failed := false }))
    (h1 : minimal_size_form b = true)
    (h2 : minimal_size_form (reader.read_string { data := b, failed := false }).2.data = true) :
    did_detail.to_data d = b := by
  simp only [did_detail.from_data_chunk, did_detail.from_data, reader.ok, Prod.mk.injEq,
    Bool.not_eq_true'] at hdec
  obtain ⟨hres, hd, hsrc⟩ := hdec
  have hok2 : (reader.read_string
      (reader.read_string { data := b, failed := false }).2).2.failed = false := by
    rw [hsrc]
  have hok1 : (reader.read_string { data := b, failed := false }).2.failed = false := by
    by_contra hc
    have hc1 : (reader.read_string { data := b, failed := false }).2.failed = true := by
      simpa using hc
    rw [read_string_failed _ hc1, hc1] at hok2
    exact absurd hok2 (by decide)
  have e1 := read_string_canonical b hwf h1 hok1
  generalize hq : reader.read_string { data := b, failed := false } = q at *
  obtain ⟨sym, r1⟩ := q
  obtain ⟨d1, f1⟩ := r1
  simp only at hok1 hok2 hsrc h2 e1 hd hres
  subst hok1
  have hwf1 : well_formed d1 := by
    rw [e1] at hwf
    exact well_formed_append_right _ _ hwf
  have e2 := read_string_canonical d1 hwf1 h2 hok2
  rw [hsrc] at e2
  simp only [List.append_nil] at e2
  have hd1 : d = did_detail.mk sym (reader.read_string { data := d1, failed := false }).1 := by
    rw [← hd]
    simp [hsrc]
  rw [did_detail_to_data_eq, hd1]
  simp only
  rw [← e2]
  exact e1.symm

/-- C4 amended at the bytes 01 41 01 42, the record ("A", "B"). -/
theorem did_detail_canonicity_witness :
    well_formed [1, 65, 1, 66] ∧
    did_detail.from_data_chunk { symbol := [], address := [] } [1, 65, 1, 66]
      = (true, { symbol := [65], address := [66] }, { data := [], failed := false }) ∧
    did_detail.to_data { symbol := [65], address := [66] } = [1, 65, 1, 66] :=
  ⟨by decide, by decide,
    did_detail_canonicity { symbol := [], address := [] } { symbol := [65], address := [66] }
      [1, 65, 1, 66] (by decide) (by decide) (by decide) (by decide)⟩


/-! ## output: claims -/

theorem to_little_endian_eight (v : Nat) : to_little_endian 8 v = LE64 v := by
  simp [LE64, List.range, List.range.loop, to_little_endian, Nat.div_div_eq_div_mul]

theorem output_to_data_eq {S A : Type} (so : script_ops S) (ao : attachment_ops A)
    (o : output S A) :
    output.to_data so ao o
      = to_little_endian 8 o.value ++ so.to_data o.script true ++ ao.to_data o.attach_data := by
  simp [output.to_data, output.to_data_sink, writer.write_8_bytes_little_endian,
    writer.write_bytes]

/-- C1: to_data of an output appends to the sink the 8-byte little-endian value,
then the script with its length prefix, then the attachment, and nothing else;
on an empty sink these bytes are the whole result. -/
theorem output_to_data_layout {S A : Type} (so : script_ops S) (ao : attachment_ops A)
    (o : output S A) (sink : writer) :
    output.to_data_sink so ao o sink
      = sink ++ (LE64 o.value ++ so.to_data o.script true ++ ao.to_data o.attach_data) ∧
    output.to_data so ao o
      = LE64 o.value ++ so.to_data o.script true ++ ao.to_data o.attach_data := by
  constructor
  · simp [output.to_data_sink, writer.write_8_bytes_little_endian, writer.write_bytes,
      to_little_endian_eight]
  · rw [output_to_data_eq, to_little_endian_eight]

theorem from_data_false_resets {S A : Type} (so : script_ops S) (ao : attachment_ops A)
    (prior : output S A) (source : reader)
    (h : (output.from_data so ao prior source).1 = false) :
    (output.from_data so ao prior source).2.1
      = { value := 0, script := so.reset, attach_data := ao.reset } := by
  unfold output.from_data at h ⊢
  simp only [reader.ok] at h ⊢
  split_ifs at h ⊢ <;> simp_all [output.reset]

/-- C7: whenever from_data returns false the output is in its reset state,
whatever the source held and whatever the output held before. -/
theorem output_reset_on_failure {S A : Type} (so : script_ops S) (ao : attachment_ops A)
    (prior : output S A) (source : reader)
    (h : (output.from_data so ao prior source).1 = false) :
    (output.from_data so ao prior source).2.1
      = { value := 0, script := so.reset, attach_data := ao.reset } :=
  from_data_false_resets so ao prior source h

/-- C10: the result of from_data is the same for any two prior states of the
target, for an output and for a did_detail. -/
theorem from_data_prior_independent {S A : Type} (so : script_ops S) (ao : attachment_ops A)
    (b : List Nat) (o1 o2 : output S A) (d1 d2 : did_detail) :
    output.from_data_chunk so ao o1 b = output.from_data_chunk so ao o2 b ∧
    did_detail.from_data_chunk d1 b = did_detail.from_data_chunk d2 b :=
  ⟨rfl, rfl⟩


/-- C7 at the eight bytes of LE64(1) with the raw-bytes script and the plain
attachment: the decode fails and the value read is discarded. -/
theorem output_reset_on_failure_witness :
    (output.from_data varbytes_script plain_attachment
        { value := 5, script := [1], attach_data := (1, 1) }
        { data := [1, 0, 0, 0, 0, 0, 0, 0], failed := false }).1 = false ∧
    (output.from_data varbytes_script plain_attachment
        { value := 5, script := [1], attach_data := (1, 1) }
        { data := [1, 0, 0, 0, 0, 0, 0, 0], failed := false }).2.1
      = { value := 0, script := [], attach_data := (0, 0) } :=
  ⟨by decide,
    output_reset_on_failure varbytes_script plain_attachment
      { value := 5, script := [1], attach_data := (1, 1) }
      { data := [1, 0, 0, 0, 0, 0, 0, 0], failed := false } (by decide)⟩

/-- C2: when the script decoder, started from the reset script on the script
bytes of o followed by the attachment bytes, returns o.script and leaves exactly
the attachment bytes, and the attachment decoder on those bytes returns
o.attach_data and leaves nothing, from_data of to_data(o) returns true with the
value, script and attachment of o; the value fits 64 bits. -/
theorem output_round_trip {S A : Type} (so : script_ops S) (ao : attachment_ops A)
    (prior o : output S A) (hv : o.value < 2 ^ 64)
    (hscript : so.from_data so.reset
        { data := so.to_data o.script true ++ ao.to_data o.attach_data, failed := false }
        true parse_mode.raw_data_fallback
      = (true, o.script, { data := ao.to_data o.attach_data, failed := false }))
    (hattach : ao.from_data ao.reset { data := ao.to_data o.attach_data, failed := false }
      = (true, o.attach_data, { data := [], failed := false })) :
    output.from_data_chunk so ao prior (output.to_data so ao o)
      = (true, o, { data := [], failed := false }) := by
  have e := read_little_endian_append 8 o.value
    (so.to_data o.script true ++ ao.to_data o.attach_data)
  have e3 : o.value % 256 ^ 8 = o.value := by
    norm_num
    norm_num at hv
    omega
  rw [e3] at e
  simp only [output.from_data_chunk, output.from_data, output_to_data_eq, List.append_assoc,
    reader.read_8_bytes_little_endian, e, reader.ok, output.reset, Bool.not_false, if_true,
    hscript, hattach]
  rfl

/-- C2 at value 1, script bytes 07 08 and attachment (1, 1). -/
theorem output_round_trip_witness :
    output.from_data_chunk varbytes_script plain_attachment
        { value := 9, script := [3], attach_data := (4, 4) }
        (output.to_data varbytes_script plain_attachment
          { value := 1, script := [7, 8], attach_data := (1, 1) })
      = (true, { value := 1, script := [7, 8], attach_data := (1, 1) },
          { data := [], failed := false }) :=
  output_round_trip varbytes_script plain_attachment
    { value := 9, script := [3], attach_data := (4, 4) }
    { value := 1, script := [7, 8], attach_data := (1, 1) } (by decide) (by decide) (by decide)

/-- C6: when the script and the attachment report as their sizes the number of
bytes they write, and the encoding fits the 64-bit size type, the length of
to_data(o) is serialized_size(o), which is 8 plus the two sizes. -/
theorem output_size_agreement {S A : Type} (so : script_ops S) (ao : attachment_ops A)
    (o : output S A)
    (hs : so.serialized_size o.script true = (so.to_data o.script true).length)
    (ha : ao.serialized_size o.attach_data = (ao.to_data o.attach_data).length)
    (hfit : (output.to_data so ao o).length < 2 ^ 64) :
    (output.to_data so ao o).length = output.serialized_size so ao o ∧
    output.serialized_size so ao o
      = 8 + so.serialized_size o.script true + ao.serialized_size o.attach_data := by
  have hlen : (output.to_data so ao o).length
      = 8 + (so.to_data o.script true).length + (ao.to_data o.attach_data).length := by
    simp only [output_to_data_eq, List.length_append, to_little_endian_length]
  rw [hlen] at hfit
  simp only [output.serialized_size, hs, ha, hlen, Nat.mod_eq_of_lt hfit, and_self]

/-- C6 at value 1, script bytes 07 08 and attachment (1, 1): 19 bytes. -/
theorem output_size_agreement_witness :
    (output.to_data varbytes_script plain_attachment
        { value := 1, script := [7, 8], attach_data := (1, 1) }).length
      = output.serialized_size varbytes_script plain_attachment
          { value := 1, script := [7, 8], attach_data := (1, 1) } ∧
    output.serialized_size varbytes_script plain_attachment
        { value := 1, script := [7, 8], attach_data := (1, 1) } = 8 + 3 + 8 :=
  output_size_agreement varbytes_script plain_attachment
    { value := 1, script := [7, 8], attach_data := (1, 1) } (by decide) (by decide) (by decide)

/-- C9: on at most 8 input bytes from_data returns false and leaves the output
reset with value 0, for every script decoder that fails on an exhausted source
(a prefix-framed script needs at least its length byte). -/
theorem output_truncation_rejected {S A : Type} (so : script_ops S) (ao : attachment_ops A)
    (prior : output S A) (b : List Nat) (hb : b.length ≤ 8)
    (hscript : (so.from_data so.reset { data := [], failed := false } true
        parse_mode.raw_data_fallback).1 = false) :
    (output.from_data_chunk so ao prior b).1 = false ∧
    (output.from_data_chunk so ao prior b).2.1
      = { value := 0, script := so.reset, attach_data := ao.reset } := by
  have hfalse : (output.from_data_chunk so ao prior b).1 = false := by
    by_cases h8 : 8 ≤ b.length
    · have hd : b.drop 8 = [] := List.drop_eq_nil_of_le hb
      simp [output.from_data_chunk, output.from_data, reader.read_8_bytes_little_endian,
        reader.read_little_endian, reader.read_bytes, h8, hd, reader.ok, output.reset, hscript]
    · simp [output.from_data_chunk, output.from_data, reader.read_8_bytes_little_endian,
        reader.read_little_endian, reader.read_bytes, h8, reader.ok]
  exact ⟨hfalse, from_data_false_resets so ao prior _ hfalse⟩

/-- C9 at the eight bytes of LE64(1), with the raw-bytes script and the plain
attachment. -/
theorem output_truncation_rejected_witness :
    (output.from_data_chunk varbytes_script plain_attachment
        { value := 5, script := [1], attach_data := (1, 1) } [1, 0, 0, 0, 0, 0, 0, 0]).1 = false ∧
    (output.from_data_chunk varbytes_script plain_attachment
        { value := 5, script := [1], attach_data := (1, 1) } [1, 0, 0, 0, 0, 0, 0, 0]).2.1
      = { value := 0, script := [], attach_data := (0, 0) } :=
  output_truncation_rejected varbytes_script plain_attachment
    { value := 5, script := [1], attach_data := (1, 1) } [1, 0, 0, 0, 0, 0, 0, 0]
    (by decide) (by decide)


/-! ## output: validity and symbol rules, claims -/

/-- C11: is_valid of an output is true exactly when the value is non-zero, or
the script is valid, or the attachment is valid. -/
theorem output_is_valid_iff {S A : Type} (so : script_ops S) (ao : attachment_ops A)
    (o : output S A) :
    output.is_valid so ao o = true ↔
      o.value ≠ 0 ∨ so.is_valid o.script = true ∨ ao.is_valid o.attach_data = true := by
  simp [output.is_valid, or_assoc]

theorem token_char_iff (i : Nat) :
    (isalnum i || i == 46) = true ↔
      (65 ≤ i ∧ i ≤ 90) ∨ (97 ≤ i ∧ i ≤ 122) ∨ (48 ≤ i ∧ i ≤ 57) ∨ i = 46 := by
  simp [isalnum, isupper, islower, isdigit, or_assoc]

theorem did_char_iff (i : Nat) :
    (isalnum i || i == 46 || i == 64 || i == 95 || i == 45) = true ↔
      (65 ≤ i ∧ i ≤ 90) ∨ (97 ≤ i ∧ i ≤ 122) ∨ (48 ≤ i ∧ i ≤ 57) ∨ i = 46 ∨ i = 64 ∨
        i = 95 ∨ i = 45 := by
  simp [isalnum, isupper, islower, isdigit, or_assoc]

theorem toupper_eq (ch : Nat) :
    toupper ch = if 97 ≤ ch ∧ ch ≤ 122 then ch - 32 else ch := by
  simp [toupper, islower]

theorem to_upper_copy_eq (s : List Nat) :
    to_upper_copy s = s.map (fun ch => if 97 ≤ ch ∧ ch ≤ 122 then ch - 32 else ch) := by
  simp only [to_upper_copy]
  exact List.map_congr_left (fun ch _ => toupper_eq ch)

theorem to_upper_copy_eq_self_iff (s : List Nat) :
    s = to_upper_copy s ↔ ∀ ch ∈ s, ¬ (97 ≤ ch ∧ ch ≤ 122) := by
  induction s with
  | nil => simp [to_upper_copy]
  | cons a t ih =>
    simp only [to_upper_copy, List.map_cons, List.cons.injEq, List.mem_cons, forall_eq_or_imp]
      at ih ⊢
    rw [← ih, toupper_eq]
    constructor
    · rintro ⟨h1, h2⟩
      refine ⟨?_, h2⟩
      intro hl
      rw [if_pos hl] at h1
      omega
    · rintro ⟨h1, h2⟩
      exact ⟨by rw [if_neg h1], h2⟩

/-- C12: is_valid_symbol(s, v) is true exactly when s is non-empty, no longer
than TOKEN_DETAIL_SYMBOL_FIX_SIZE, made of letters, digits and dots, and, from
the nova version on, free of lower-case letters (it equals its ASCII
upper-casing) and not on the sensitive list. -/
theorem is_valid_symbol_iff (c : constants) (is_sensitive : List Nat → Bool) (s : List Nat)
    (v : Nat) :
    output.is_valid_symbol c is_sensitive s v = true ↔
      s ≠ [] ∧ s.length ≤ c.TOKEN_DETAIL_SYMBOL_FIX_SIZE ∧
      (∀ ch ∈ s, (65 ≤ ch ∧ ch ≤ 90) ∨ (97 ≤ ch ∧ ch ≤ 122) ∨ (48 ≤ ch ∧ ch ≤ 57) ∨ ch = 46) ∧
      (c.check_nova_feature ≤ v →
        (∀ ch ∈ s, ¬ (97 ≤ ch ∧ ch ≤ 122)) ∧
        s = s.map (fun ch => if 97 ≤ ch ∧ ch ≤ 122 then ch - 32 else ch) ∧
        is_sensitive s = false) := by
  have hup := to_upper_copy_eq_self_iff s
  have hmap := to_upper_copy_eq s
  have hall : (s.all (fun i => isalnum i || i == 46)) = true ↔
      ∀ ch ∈ s, (65 ≤ ch ∧ ch ≤ 90) ∨ (97 ≤ ch ∧ ch ≤ 122) ∨ (48 ≤ ch ∧ ch ≤ 57) ∨ ch = 46 := by
    rw [List.all_eq_true]
    exact forall₂_congr (fun ch _ => token_char_iff ch)
  rw [← hmap, ← hall]
  unfold output.is_valid_symbol
  by_cases h1 : s = []
  · simp [h1]
  by_cases h2 : s.length > c.TOKEN_DETAIL_SYMBOL_FIX_SIZE
  · simp [h1, h2]
  by_cases h3 : (s.all (fun i => isalnum i || i == 46)) = true
  swap
  · simp [h1, h2, h3]
  by_cases h4 : v ≥ c.check_nova_feature
  swap
  · have h4' : ¬ c.check_nova_feature ≤ v := h4
    simp [h1, h2, h3, h4, h4']
    omega
  have h4' : c.check_nova_feature ≤ v := h4
  by_cases h5 : s = to_upper_copy s
  swap
  · simp [h1, h2, h3, h4, h4', h5]
  have h6 := hup.1 h5
  cases h7 : is_sensitive s
  · simp only [List.isEmpty_iff, h1, if_false, h2, h3, Bool.not_true, h4, if_true, bne_iff_ne,
      ne_eq, ← h5, not_true_eq_false, h7, Bool.false_eq_true, not_false_eq_true, true_and,
      h4', forall_true_left, and_true, true_iff]
    exact ⟨by omega, h6⟩
  · simp [h1, h2, h3, h4, h4', ← h5, h7]


/-- C12 at "ABC.X" and version 4 with the sample constants and an empty
sensitive list: the symbol is valid. -/
theorem is_valid_symbol_iff_witness :
    output.is_valid_symbol sample_constants (fun _ => false) [65, 66, 67, 46, 88] 4 = true :=
  (is_valid_symbol_iff sample_constants (fun _ => false) [65, 66, 67, 46, 88] 4).2
    (by decide)

/-- C13: from the nova version on, a symbol with an ASCII lower-case letter is
rejected by is_valid_symbol, whatever the sensitive list holds. -/
theorem is_valid_symbol_lower_case_rejected (c : constants) (is_sensitive : List Nat → Bool)
    (s : List Nat) (v : Nat) (hv : c.check_nova_feature ≤ v)
    (hl : ∃ ch ∈ s, 97 ≤ ch ∧ ch ≤ 122) :
    output.is_valid_symbol c is_sensitive s v = false := by
  obtain ⟨ch, hmem, hlow⟩ := hl
  have hne : ¬ s = to_upper_copy s := fun h => (to_upper_copy_eq_self_iff s).1 h ch hmem hlow
  have hv' : v ≥ c.check_nova_feature := hv
  unfold output.is_valid_symbol
  simp only [hv', if_true, bne_iff_ne, ne_eq, hne, not_false_eq_true]
  split_ifs <;> rfl

/-- C13 at "abc" and version 4 with the sample constants. -/
theorem is_valid_symbol_lower_case_rejected_witness :
    output.is_valid_symbol sample_constants (fun _ => false) [97, 98, 99] 4 = false :=
  is_valid_symbol_lower_case_rejected sample_constants (fun _ => false) [97, 98, 99] 4
    (by decide) ⟨97, by decide, by decide⟩

theorem did_chars_all_iff (s : List Nat) :
    (s.all (fun i => isalnum i || i == 46 || i == 64 || i == 95 || i == 45)) = true ↔
      ∀ ch ∈ s, (65 ≤ ch ∧ ch ≤ 90) ∨ (97 ≤ ch ∧ ch ≤ 122) ∨ (48 ≤ ch ∧ ch ≤ 57) ∨ ch = 46 ∨
        ch = 64 ∨ ch = 95 ∨ ch = 45 := by
  rw [List.all_eq_true]
  exact forall₂_congr (fun ch _ => did_char_iff ch)

/-- C14: is_valid_did_symbol(s, check_sensitive) is true exactly when s is
non-empty, no longer than DID_DETAIL_SYMBOL_FIX_SIZE, made of letters, digits
and the characters . @ _ -, and, when check_sensitive is set, its ASCII
upper-casing is not on the sensitive list. -/
theorem is_valid_did_symbol_iff (c : constants) (is_sensitive : List Nat → Bool)
    (s : List Nat) (check_sensitive : Bool) :
    output.is_valid_did_symbol c is_sensitive s check_sensitive = true ↔
      s ≠ [] ∧ s.length ≤ c.DID_DETAIL_SYMBOL_FIX_SIZE ∧
      (∀ ch ∈ s, (65 ≤ ch ∧ ch ≤ 90) ∨ (97 ≤ ch ∧ ch ≤ 122) ∨ (48 ≤ ch ∧ ch ≤ 57) ∨ ch = 46 ∨
        ch = 64 ∨ ch = 95 ∨ ch = 45) ∧
      (check_sensitive = true →
        is_sensitive (s.map (fun ch => if 97 ≤ ch ∧ ch ≤ 122 then ch - 32 else ch))
          = false) := by
  rw [← to_upper_copy_eq s, ← did_chars_all_iff s]
  unfold output.is_valid_did_symbol
  by_cases h1 : s = []
  · simp [h1]
  by_cases h2 : s.length > c.DID_DETAIL_SYMBOL_FIX_SIZE
  · simp [h1, h2]
  have h2' : s.length ≤ c.DID_DETAIL_SYMBOL_FIX_SIZE := by omega
  by_cases h3 : (s.all (fun i => isalnum i || i == 46 || i == 64 || i == 95 || i == 45)) = true
  swap
  · simp [h1, h2, h3]
  cases check_sensitive <;> cases h7 : is_sensitive (to_upper_copy s) <;>
    simp [h1, h2, h2', h3, h7]

/-- C15: is_valid_mit_symbol(s, check_sensitive) is true exactly when s is
non-empty, no longer than TOKEN_MIT_SYMBOL_FIX_SIZE, made of letters, digits
and the characters . @ _ -, and, when check_sensitive is set, its ASCII
upper-casing is not on the sensitive list. -/
theorem is_valid_mit_symbol_iff (c : constants) (is_sensitive : List Nat → Bool)
    (s : List Nat) (check_sensitive : Bool) :
    output.is_valid_mit_symbol c is_sensitive s check_sensitive = true ↔
      s ≠ [] ∧ s.length ≤ c.TOKEN_MIT_SYMBOL_FIX_SIZE ∧
      (∀ ch ∈ s, (65 ≤ ch ∧ ch ≤ 90) ∨ (97 ≤ ch ∧ ch ≤ 122) ∨ (48 ≤ ch ∧ ch ≤ 57) ∨ ch = 46 ∨
        ch = 64 ∨ ch = 95 ∨ ch = 45) ∧
      (check_sensitive = true →
        is_sensitive (s.map (fun ch => if 97 ≤ ch ∧ ch ≤ 122 then ch - 32 else ch))
          = false) := by
  rw [← to_upper_copy_eq s, ← did_chars_all_iff s]
  unfold output.is_valid_mit_symbol
  by_cases h1 : s = []
  · simp [h1]
  by_cases h2 : s.length > c.TOKEN_MIT_SYMBOL_FIX_SIZE
  · simp [h1, h2]
  have h2' : s.length ≤ c.TOKEN_MIT_SYMBOL_FIX_SIZE := by omega
  by_cases h3 : (s.all (fun i => isalnum i || i == 46 || i == 64 || i == 95 || i == 45)) = true
  swap
  · simp [h1, h2, h3]
  cases check_sensitive <;> cases h7 : is_sensitive (to_upper_copy s) <;>
    simp [h1, h2, h2', h3, h7]


/-! ## output: projections, claims -/

/-- C16: get_token_amount is the maximum supply of the detail for a token with
status TOKEN_DETAIL_TYPE, the quantity of the transfer for a token with status
TOKEN_TRANSFERABLE_TYPE, and 0 for a non-token attachment and for a token with
any other status. -/
theorem get_token_amount_semantics {S : Type} (c : constants) (o : output S attachment) :
    (∀ t d, o.attach_data.type = c.TOKEN_TYPE → o.attach_data.attach = .token t →
      t.status = c.TOKEN_DETAIL_TYPE → t.data = .detail d →
      output.get_token_amount c o = .ok d.maximum_supply) ∧
    (∀ t x, o.attach_data.type = c.TOKEN_TYPE → o.attach_data.attach = .token t →
      t.status = c.TOKEN_TRANSFERABLE_TYPE → c.TOKEN_TRANSFERABLE_TYPE ≠ c.TOKEN_DETAIL_TYPE →
      t.data = .transfer x → output.get_token_amount c o = .ok x.quantity) ∧
    (o.attach_data.type ≠ c.TOKEN_TYPE → output.get_token_amount c o = .ok 0) ∧
    (∀ t, o.attach_data.type = c.TOKEN_TYPE → o.attach_data.attach = .token t →
      t.status ≠ c.TOKEN_DETAIL_TYPE → t.status ≠ c.TOKEN_TRANSFERABLE_TYPE →
      output.get_token_amount c o = .ok 0) := by
  refine ⟨?_, ?_, ?_, ?_⟩
  · intro t d h1 h2 h3 h4
    simp [output.get_token_amount, h1, h2, h3, h4, boost_get_token, boost_get_token_detail,
      bind, Except.bind, pure, Except.pure]
  · intro t x h1 h2 h3 h4 h5
    simp [output.get_token_amount, h1, h2, h3, h4, h5, boost_get_token,
      boost_get_token_transfer, bind, Except.bind, pure, Except.pure]
  · intro h1
    simp [output.get_token_amount, h1, pure, Except.pure]
  · intro t h1 h2 h3 h4
    simp [output.get_token_amount, h1, h2, h3, h4, boost_get_token, bind, Except.bind, pure,
      Except.pure]

/-- C16 at a transfer of 42 of "ABC.X" with the sample constants. -/
theorem get_token_amount_semantics_witness :
    output.get_token_amount sample_constants sample_transfer_output = .ok 42 :=
  (get_token_amount_semantics sample_constants sample_transfer_output).2.1 _ _ rfl rfl rfl
    (by decide) rfl

/-- C17: with pairwise distinct type tags at most one of is_token,
is_token_cert, is_token_mit, is_did, is_ucn, is_ucn_award and is_message is
true. -/
theorem projections_exclusive {S : Type} (c : constants) (o : output S attachment)
    (hd : c.tags_distinct) :
    [output.is_token c o, output.is_token_cert c o, output.is_token_mit c o,
      output.is_did c o, output.is_ucn c o, output.is_ucn_award c o,
      output.is_message c o].count true ≤ 1 := by
  simp only [constants.tags_distinct, List.nodup_cons, List.mem_cons, List.mem_singleton,
    List.not_mem_nil, not_or, List.nodup_nil, or_false, and_true, not_false_eq_true] at hd
  obtain ⟨⟨h1, h2, h3, h4, h5, h6⟩, ⟨h7, h8, h9, h10, h11⟩, ⟨h12, h13, h14, h15⟩,
    ⟨h16, h17, h18⟩, ⟨h19, h20⟩, h21⟩ := hd
  simp only [output.is_token, output.is_token_cert, output.is_token_mit, output.is_did,
    output.is_ucn, output.is_ucn_award, output.is_message]
  by_cases e1 : o.attach_data.type = c.TOKEN_TYPE
  · simp [e1, h12, h13, h14, h15, Ne.symm h2, Ne.symm h7]
  by_cases e2 : o.attach_data.type = c.TOKEN_CERT_TYPE
  · simp [e2, Ne.symm h14, Ne.symm h5, Ne.symm h10, Ne.symm h17, Ne.symm h19, h21]
  by_cases e3 : o.attach_data.type = c.TOKEN_MIT_TYPE
  · simp [e3, Ne.symm h15, Ne.symm h6, Ne.symm h11, Ne.symm h18, Ne.symm h20, Ne.symm h21]
  by_cases e4 : o.attach_data.type = c.DID_TYPE
  · simp [e4, Ne.symm h13, Ne.symm h4, Ne.symm h9, Ne.symm h16, h19, h20]
  by_cases e5 : o.attach_data.type = c.UCN_TYPE
  · simp [e5, h1, h2, h3, h4, h5, h6]
  by_cases e6 : o.attach_data.type = c.UCN_AWARD_TYPE
  · simp [e6, Ne.symm h1, h7, h8, h9, h10, h11]
  simp [e1, e2, e3, e4, e5, e6]
  by_cases e7 : o.attach_data.type = c.MESSAGE_TYPE <;> simp [e7]

/-- C17 at the sample token transfer with the sample constants: is_token
alone is true. -/
theorem projections_exclusive_witness :
    sample_constants.tags_distinct ∧
    output.is_token sample_constants sample_transfer_output = true ∧
    [output.is_token sample_constants sample_transfer_output,
      output.is_token_cert sample_constants sample_transfer_output,
      output.is_token_mit sample_constants sample_transfer_output,
      output.is_did sample_constants sample_transfer_output,
      output.is_ucn sample_constants sample_transfer_output,
      output.is_ucn_award sample_constants sample_transfer_output,
      output.is_message sample_constants sample_transfer_output].count true ≤ 1 :=
  ⟨by decide, by decide,
    projections_exclusive sample_constants sample_transfer_output (by decide)⟩

theorem token_issue_type {S : Type} (c : constants) (o : output S attachment) :
    (output.is_token_issue c o = .ok true → o.attach_data.type = c.TOKEN_TYPE) ∧
    (output.is_token_secondaryissue c o = .ok true → o.attach_data.type = c.TOKEN_TYPE) ∧
    (output.is_token_secondaryissue c o = .ok true → output.is_token_issue c o = .ok false) ∧
    (o.attach_data.type ≠ c.TOKEN_TYPE →
      output.is_token_issue c o = .ok false ∧
      output.is_token_secondaryissue c o = .ok false) := by
  rcases o with ⟨v, s, ⟨ty, ver, fd, td, att⟩⟩
  simp only [output.is_token_issue, output.is_token_secondaryissue]
  by_cases e : ty = c.TOKEN_TYPE
  · cases att <;> simp [e, boost_get_token, bind, Except.bind, pure, Except.pure]
    rename_i t
    rcases t with ⟨st, data⟩
    by_cases e2 : st = c.TOKEN_DETAIL_TYPE
    · cases data <;> simp [e2, boost_get_token_detail]
    · simp [e2]
  · simp [e, pure, Except.pure]

theorem did_kind_type {S : Type} (c : constants) (o : output S attachment) :
    (output.is_did_register c o = .ok true → o.attach_data.type = c.DID_TYPE) ∧
    (output.is_did_transfer c o = .ok true → o.attach_data.type = c.DID_TYPE) ∧
    (output.is_did_transfer c o = .ok true → ∃ b, output.is_did_register c o = .ok b) ∧
    (o.attach_data.type ≠ c.DID_TYPE →
      output.is_did_register c o = .ok false ∧ output.is_did_transfer c o = .ok false) := by
  rcases o with ⟨v, s, ⟨ty, ver, fd, td, att⟩⟩
  simp only [output.is_did_register, output.is_did_transfer]
  by_cases e : ty = c.DID_TYPE
  · cases att <;> simp [e, boost_get_did, bind, Except.bind, pure, Except.pure]
  · simp [e, pure, Except.pure]

theorem tags_distinct_facts (c : constants) (hd : c.tags_distinct) :
    c.TOKEN_TYPE ≠ c.TOKEN_CERT_TYPE ∧ c.TOKEN_TYPE ≠ c.TOKEN_MIT_TYPE ∧
    c.TOKEN_TYPE ≠ c.DID_TYPE ∧ c.TOKEN_CERT_TYPE ≠ c.TOKEN_MIT_TYPE ∧
    c.DID_TYPE ≠ c.TOKEN_CERT_TYPE ∧ c.DID_TYPE ≠ c.TOKEN_MIT_TYPE := by
  simp only [constants.tags_distinct, List.nodup_cons, List.mem_cons, List.mem_singleton,
    List.not_mem_nil, not_or, List.nodup_nil, or_false, and_true, not_false_eq_true] at hd
  obtain ⟨-, -, ⟨-, h13, h14, h15⟩, -, ⟨h19, h20⟩, h21⟩ := hd
  exact ⟨h14, h15, h13, h21, h19, h20⟩

/-- C18: when the two token status tags differ, an output that is a token issue
is a token and is not a token transfer; and no output is both a token issue and
a token secondary issue. -/
theorem token_issue_consistency {S : Type} (c : constants) (o : output S attachment)
    (hne : c.TOKEN_DETAIL_TYPE ≠ c.TOKEN_TRANSFERABLE_TYPE) :
    (output.is_token_issue c o = .ok true →
      output.is_token c o = true ∧ output.is_token_transfer c o = .ok false) ∧
    ¬ (output.is_token_issue c o = .ok true ∧
      output.is_token_secondaryissue c o = .ok true) := by
  rcases o with ⟨v, s, ⟨ty, ver, fd, td, att⟩⟩
  simp only [output.is_token_issue, output.is_token, output.is_token_transfer,
    output.is_token_secondaryissue]
  by_cases e : ty = c.TOKEN_TYPE
  · cases att <;> simp [e, boost_get_token, bind, Except.bind, pure, Except.pure]
    rename_i t
    rcases t with ⟨st, data⟩
    by_cases e2 : st = c.TOKEN_DETAIL_TYPE
    · cases data <;> simp [e2, hne, boost_get_token_detail]
    · simp [e2]
  · simp [e, pure, Except.pure]

/-- C18 at the sample issue of "ABC.X" (flags 0) with the sample constants. -/
theorem token_issue_consistency_witness :
    output.is_token_issue sample_constants (sample_issue_output 0 [85]) = .ok true ∧
    output.is_token sample_constants (sample_issue_output 0 [85]) = true ∧
    output.is_token_transfer sample_constants (sample_issue_output 0 [85]) = .ok false :=
  ⟨by decide,
    (token_issue_consistency sample_constants (sample_issue_output 0 [85]) (by decide)).1
      (by decide)⟩


/-! ## output: attachment-address cross-check, claims -/

theorem check_success_cases {S P C : Type} (c : constants) (pa : payment_address_ops S P)
    (o : output S attachment) (chain : C)
    (h : output.check_attachment_address c pa o chain = .ok error.success) :
    (output.is_token_issue c o = .ok false ∧ output.is_token_secondaryissue c o = .ok false ∧
        output.is_token_mit c o = false ∧ output.is_token_cert c o = false ∧
        output.is_did_register c o = .ok false ∧ output.is_did_transfer c o = .ok false) ∨
      ((output.is_token_issue c o = .ok true ∨ output.is_token_secondaryissue c o = .ok true ∨
          output.is_token_mit c o = true) ∧
        output.get_token_address c o = .ok (output.get_script_address pa o)) ∨
      (output.is_token_cert c o = true ∧
        output.get_token_cert_address c o = .ok (output.get_script_address pa o)) ∨
      ((output.is_did_register c o = .ok true ∨ output.is_did_transfer c o = .ok true) ∧
        output.get_did_address c o = .ok (output.get_script_address pa o)) := by
  unfold output.check_attachment_address at h
  generalize output.is_token_issue c o = r1 at h ⊢
  generalize output.is_token_secondaryissue c o = r2 at h ⊢
  generalize output.is_token_mit c o = b3 at h ⊢
  generalize output.is_token_cert c o = b4 at h ⊢
  generalize output.is_did_register c o = r5 at h ⊢
  generalize output.is_did_transfer c o = r6 at h ⊢
  generalize output.get_token_address c o = a1 at h ⊢
  generalize output.get_token_cert_address c o = a2 at h ⊢
  generalize output.get_did_address c o = a3 at h ⊢
  generalize output.get_script_address pa o = sa at h ⊢
  rcases r1 with e1 | (_ | _) <;> simp only [bind, Except.bind, pure, Except.pure] at h
  · exact absurd h (by simp)
  · rcases r2 with e2 | (_ | _) <;> simp only [] at h
    · exact absurd h (by simp)
    · cases b3
      · cases b4
        · rcases r5 with e5 | (_ | _) <;> simp only [] at h
          · exact absurd h (by simp)
          · rcases r6 with e6 | (_ | _) <;> simp only [] at h
            · exact absurd h (by simp)
            · simp
            · rcases a3 with _ | x3 <;> simp at h
              simp [h]
          · rcases a3 with _ | x3 <;> simp at h
            simp [h]
        · rcases a2 with _ | x2 <;> simp at h
          simp [h]
      · rcases a1 with _ | x1 <;> simp at h
        simp [h]
    · rcases a1 with _ | x1 <;> simp at h
      simp [h]
  · rcases a1 with _ | x1 <;> simp at h
    simp [h]

theorem first_kind_type {S : Type} (c : constants) (o : output S attachment)
    (h : output.is_token_issue c o = .ok true ∨ output.is_token_secondaryissue c o = .ok true ∨
      output.is_token_mit c o = true) :
    o.attach_data.type = c.TOKEN_TYPE ∨ o.attach_data.type = c.TOKEN_MIT_TYPE := by
  rcases h with h | h | h
  · exact Or.inl ((token_issue_type c o).1 h)
  · exact Or.inl ((token_issue_type c o).2.1 h)
  · exact Or.inr (by simpa [output.is_token_mit] using h)

theorem did_kind_type_of {S : Type} (c : constants) (o : output S attachment)
    (h : output.is_did_register c o = .ok true ∨ output.is_did_transfer c o = .ok true) :
    o.attach_data.type = c.DID_TYPE := by
  rcases h with h | h
  · exact (did_kind_type c o).1 h
  · exact (did_kind_type c o).2.1 h

/-- C19: when check_attachment_address returns success, either the output is
none of token issue, secondary issue, MIT, cert, DID register and DID transfer,
or the address its attachment declares (get_token_address for issue, secondary
issue and MIT, get_token_cert_address for cert, get_did_address for DID) is
get_script_address; with pairwise distinct type tags each kind has its own
declared address equal to the script address. -/
theorem check_attachment_address_sound {S P C : Type} (c : constants)
    (pa : payment_address_ops S P) (o : output S attachment) (chain : C)
    (h : output.check_attachment_address c pa o chain = .ok error.success) :
    ((output.is_token_issue c o = .ok false ∧ output.is_token_secondaryissue c o = .ok false ∧
        output.is_token_mit c o = false ∧ output.is_token_cert c o = false ∧
        output.is_did_register c o = .ok false ∧ output.is_did_transfer c o = .ok false) ∨
      ((output.is_token_issue c o = .ok true ∨ output.is_token_secondaryissue c o = .ok true ∨
          output.is_token_mit c o = true) ∧
        output.get_token_address c o = .ok (output.get_script_address pa o)) ∨
      (output.is_token_cert c o = true ∧
        output.get_token_cert_address c o = .ok (output.get_script_address pa o)) ∨
      ((output.is_did_register c o = .ok true ∨ output.is_did_transfer c o = .ok true) ∧
        output.get_did_address c o = .ok (output.get_script_address pa o))) ∧
    (c.tags_distinct →
      ((output.is_token_issue c o = .ok true ∨ output.is_token_secondaryissue c o = .ok true ∨
          output.is_token_mit c o = true) →
        output.get_token_address c o = .ok (output.get_script_address pa o)) ∧
      (output.is_token_cert c o = true →
        output.get_token_cert_address c o = .ok (output.get_script_address pa o)) ∧
      ((output.is_did_register c o = .ok true ∨ output.is_did_transfer c o = .ok true) →
        output.get_did_address c o = .ok (output.get_script_address pa o))) := by
  have hcases := check_success_cases c pa o chain h
  refine ⟨hcases, fun hd => ?_⟩
  obtain ⟨d1, d2, d3, d4, d5, d6⟩ := tags_distinct_facts c hd
  have hcert : output.is_token_cert c o = true → o.attach_data.type = c.TOKEN_CERT_TYPE := by
    intro hc
    simpa [output.is_token_cert] using hc
  refine ⟨fun hk => ?_, fun hk => ?_, fun hk => ?_⟩
  · have ht := first_kind_type c o hk
    rcases hcases with ⟨n1, n2, n3, -⟩ | ⟨-, ha⟩ | ⟨k, -⟩ | ⟨k, -⟩
    · rcases hk with hk | hk | hk
      · rw [n1] at hk
        exact absurd hk (by simp)
      · rw [n2] at hk
        exact absurd hk (by simp)
      · rw [n3] at hk
        exact absurd hk (by simp)
    · exact ha
    · have := hcert k
      rcases ht with ht | ht <;> rw [ht] at this <;> simp_all
    · have := did_kind_type_of c o k
      rcases ht with ht | ht <;> rw [ht] at this <;> simp_all
  · have ht := hcert hk
    rcases hcases with ⟨-, -, -, n4, -⟩ | ⟨k, -⟩ | ⟨-, ha⟩ | ⟨k, -⟩
    · rw [n4] at hk
      exact absurd hk (by simp)
    · have := first_kind_type c o k
      rcases this with this | this <;> rw [ht] at this <;> simp_all
    · exact ha
    · have := did_kind_type_of c o k
      rw [ht] at this
      simp_all
  · have ht := did_kind_type_of c o hk
    rcases hcases with ⟨-, -, -, -, n5, n6⟩ | ⟨k, -⟩ | ⟨k, -⟩ | ⟨-, ha⟩
    · rcases hk with hk | hk
      · rw [n5] at hk
        exact absurd hk (by simp)
      · rw [n6] at hk
        exact absurd hk (by simp)
    · have := first_kind_type c o k
      rcases this with this | this <;> rw [ht] at this <;> simp_all
    · have := hcert k
      rw [ht] at this
      simp_all
    · exact ha

/-- C19 at the sample DID registration whose declared address "UCxxxB" is the
script address: the check succeeds and get_did_address is the script address. -/
theorem check_attachment_address_sound_witness :
    output.check_attachment_address sample_constants script_bytes_address
        (sample_did_output [85, 67, 120, 120, 120, 66]) () = .ok error.success ∧
    output.get_did_address sample_constants (sample_did_output [85, 67, 120, 120, 120, 66])
      = .ok (output.get_script_address script_bytes_address
          (sample_did_output [85, 67, 120, 120, 120, 66])) :=
  ⟨by decide,
    ((check_attachment_address_sound sample_constants script_bytes_address
        (sample_did_output [85, 67, 120, 120, 120, 66]) () (by decide)).2 (by decide)).2.2
      (Or.inl (by decide))⟩


/-- C20: with pairwise distinct type tags, when the declared attachment address
differs from get_script_address, check_attachment_address returns
token_address_not_match for a token issue, secondary issue or MIT (declared
through get_token_address) and for a token cert (declared through
get_token_cert_address), and did_address_not_match for a DID register or
transfer (declared through get_did_address). -/
theorem check_attachment_address_mismatch {S P C : Type} (c : constants)
    (pa : payment_address_ops S P) (o : output S attachment) (chain : C)
    (hd : c.tags_distinct) :
    (∀ a, (output.is_token_issue c o = .ok true ∨
          output.is_token_secondaryissue c o = .ok true ∨ output.is_token_mit c o = true) →
      output.get_token_address c o = .ok a → a ≠ output.get_script_address pa o →
      output.check_attachment_address c pa o chain = .ok error.token_address_not_match) ∧
    (∀ a, output.is_token_cert c o = true →
      output.get_token_cert_address c o = .ok a → a ≠ output.get_script_address pa o →
      output.check_attachment_address c pa o chain = .ok error.token_address_not_match) ∧
    (∀ a, (output.is_did_register c o = .ok true ∨ output.is_did_transfer c o = .ok true) →
      output.get_did_address c o = .ok a → a ≠ output.get_script_address pa o →
      output.check_attachment_address c pa o chain = .ok error.did_address_not_match) := by
  obtain ⟨d1, d2, d3, d4, d5, d6⟩ := tags_distinct_facts c hd
  refine ⟨fun a hk ha hne => ?_, fun a hk ha hne => ?_, fun a hk ha hne => ?_⟩
  · rcases hk with hk | hk | hk
    · simp [output.check_attachment_address, hk, ha, hne, bind, Except.bind, pure,
        Except.pure]
    · have hi := (token_issue_type c o).2.2.1 hk
      simp [output.check_attachment_address, hk, hi, ha, hne, bind, Except.bind, pure,
        Except.pure]
    · have ht : o.attach_data.type = c.TOKEN_MIT_TYPE := by
        simpa [output.is_token_mit] using hk
      have hnt : o.attach_data.type ≠ c.TOKEN_TYPE := by
        rw [ht]
        exact Ne.symm d2
      obtain ⟨hi, hs⟩ := (token_issue_type c o).2.2.2 hnt
      simp [output.check_attachment_address, hk, hi, hs, ha, hne, bind, Except.bind, pure,
        Except.pure]
  · have ht : o.attach_data.type = c.TOKEN_CERT_TYPE := by
      simpa [output.is_token_cert] using hk
    have hnt : o.attach_data.type ≠ c.TOKEN_TYPE := by
      rw [ht]
      exact Ne.symm d1
    obtain ⟨hi, hs⟩ := (token_issue_type c o).2.2.2 hnt
    have hm : output.is_token_mit c o = false := by
      simp [output.is_token_mit, ht, d4]
    simp [output.check_attachment_address, hk, hi, hs, hm, ha, hne, bind, Except.bind, pure,
      Except.pure]
  · have ht := did_kind_type_of c o hk
    have hnt : o.attach_data.type ≠ c.TOKEN_TYPE := by
      rw [ht]
      exact Ne.symm d3
    obtain ⟨hi, hs⟩ := (token_issue_type c o).2.2.2 hnt
    have hm : output.is_token_mit c o = false := by
      simp [output.is_token_mit, ht, d6]
    have hc : output.is_token_cert c o = false := by
      simp [output.is_token_cert, ht, d5]
    rcases hk with hk | hk
    · simp [output.check_attachment_address, hk, hi, hs, hm, hc, ha, hne, bind, Except.bind,
        pure, Except.pure]
    · obtain ⟨b, hb⟩ := (did_kind_type c o).2.2.1 hk
      cases b <;>
        simp [output.check_attachment_address, hk, hb, hi, hs, hm, hc, ha, hne, bind,
          Except.bind, pure, Except.pure]

/-- C20 at the sample DID registration declaring "UCxxxA" under the script
address "UCxxxB": did_address_not_match. -/
theorem check_attachment_address_mismatch_witness :
    sample_constants.tags_distinct ∧
    output.check_attachment_address sample_constants script_bytes_address
        (sample_did_output [85, 67, 120, 120, 120, 65]) ()
      = .ok error.did_address_not_match :=
  ⟨by decide,
    (check_attachment_address_mismatch sample_constants script_bytes_address
        (sample_did_output [85, 67, 120, 120, 120, 65]) () (by decide)).2.2
      [85, 67, 120, 120, 120, 65] (Or.inl (by decide)) (by decide) (by decide)⟩


theorem tags_distinct_plain_facts (c : constants) (hd : c.tags_distinct) :
    (c.UCN_TYPE ≠ c.TOKEN_TYPE ∧ c.UCN_TYPE ≠ c.TOKEN_MIT_TYPE ∧
      c.UCN_TYPE ≠ c.TOKEN_CERT_TYPE ∧ c.UCN_TYPE ≠ c.DID_TYPE) ∧
    (c.UCN_AWARD_TYPE ≠ c.TOKEN_TYPE ∧ c.UCN_AWARD_TYPE ≠ c.TOKEN_MIT_TYPE ∧
      c.UCN_AWARD_TYPE ≠ c.TOKEN_CERT_TYPE ∧ c.UCN_AWARD_TYPE ≠ c.DID_TYPE) ∧
    (c.MESSAGE_TYPE ≠ c.TOKEN_TYPE ∧ c.MESSAGE_TYPE ≠ c.TOKEN_MIT_TYPE ∧
      c.MESSAGE_TYPE ≠ c.TOKEN_CERT_TYPE ∧ c.MESSAGE_TYPE ≠ c.DID_TYPE) := by
  simp only [constants.tags_distinct, List.nodup_cons, List.mem_cons, List.mem_singleton,
    List.not_mem_nil, not_or, List.nodup_nil, or_false, and_true, not_false_eq_true] at hd
  obtain ⟨⟨-, h2, -, h4, h5, h6⟩, ⟨h7, -, h9, h10, h11⟩, ⟨h12, -, -, -⟩,
    ⟨h16, h17, h18⟩, -, -⟩ := hd
  exact ⟨⟨h2, h6, h5, h4⟩, ⟨h7, h11, h10, h9⟩, ⟨Ne.symm h12, h18, h17, h16⟩⟩

theorem untyped_kinds_false {S : Type} (c : constants) (o : output S attachment)
    (h1 : o.attach_data.type ≠ c.TOKEN_TYPE) (h2 : o.attach_data.type ≠ c.TOKEN_MIT_TYPE)
    (h3 : o.attach_data.type ≠ c.TOKEN_CERT_TYPE) (h4 : o.attach_data.type ≠ c.DID_TYPE) :
    output.is_token_issue c o = .ok false ∧ output.is_token_secondaryissue c o = .ok false ∧
    output.is_token_mit c o = false ∧ output.is_token_cert c o = false ∧
    output.is_did_register c o = .ok false ∧ output.is_did_transfer c o = .ok false := by
  obtain ⟨hi, hs⟩ := (token_issue_type c o).2.2.2 h1
  obtain ⟨hr, ht⟩ := (did_kind_type c o).2.2.2 h4
  refine ⟨hi, hs, ?_, ?_, hr, ht⟩
  · simp [output.is_token_mit, h2]
  · simp [output.is_token_cert, h3]

theorem token_transfer_kind {S : Type} (c : constants) (o : output S attachment)
    (hne : c.TOKEN_DETAIL_TYPE ≠ c.TOKEN_TRANSFERABLE_TYPE)
    (h : output.is_token_transfer c o = .ok true) :
    o.attach_data.type = c.TOKEN_TYPE ∧ output.is_token_issue c o = .ok false ∧
    output.is_token_secondaryissue c o = .ok false := by
  rcases o with ⟨v, s, ⟨ty, ver, fd, td, att⟩⟩
  simp only [output.is_token_transfer, output.is_token_issue,
    output.is_token_secondaryissue] at h ⊢
  by_cases e : ty = c.TOKEN_TYPE
  · cases att <;> simp [e, boost_get_token, bind, Except.bind, pure, Except.pure] at h ⊢
    rename_i t
    simp [h, Ne.symm hne]
  · simp [e, pure, Except.pure] at h

theorem check_success_of_untyped {S P C : Type} (c : constants)
    (pa : payment_address_ops S P) (o : output S attachment) (chain : C)
    (h : output.is_token_issue c o = .ok false ∧ output.is_token_secondaryissue c o = .ok false ∧
      output.is_token_mit c o = false ∧ output.is_token_cert c o = false ∧
      output.is_did_register c o = .ok false ∧ output.is_did_transfer c o = .ok false) :
    output.check_attachment_address c pa o chain = .ok error.success := by
  obtain ⟨h1, h2, h3, h4, h5, h6⟩ := h
  simp [output.check_attachment_address, h1, h2, h3, h4, h5, h6, bind, Except.bind, pure,
    Except.pure]

/-- C21: check_attachment_address returns success when the output is none of
token issue, secondary issue, MIT, cert, DID register and DID transfer (with
pairwise distinct type tags: every UCN, UCN award and message output, and every
token transfer), and when the declared address of a typed output equals
get_script_address; the result is the same for any two chain arguments. -/
theorem check_attachment_address_complete {S P C D : Type} (c : constants)
    (pa : payment_address_ops S P) (o : output S attachment) (chain : C) (other : D) :
    ((output.is_token_issue c o = .ok false ∧ output.is_token_secondaryissue c o = .ok false ∧
        output.is_token_mit c o = false ∧ output.is_token_cert c o = false ∧
        output.is_did_register c o = .ok false ∧ output.is_did_transfer c o = .ok false) →
      output.check_attachment_address c pa o chain = .ok error.success) ∧
    (c.tags_distinct →
      ((output.is_ucn c o = true ∨ output.is_ucn_award c o = true ∨
          output.is_message c o = true) →
        output.check_attachment_address c pa o chain = .ok error.success) ∧
      (c.TOKEN_DETAIL_TYPE ≠ c.TOKEN_TRANSFERABLE_TYPE →
        output.is_token_transfer c o = .ok true →
        output.check_attachment_address c pa o chain = .ok error.success) ∧
      ((output.is_token_issue c o = .ok true ∨ output.is_token_secondaryissue c o = .ok true ∨
          output.is_token_mit c o = true) →
        output.get_token_address c o = .ok (output.get_script_address pa o) →
        output.check_attachment_address c pa o chain = .ok error.success) ∧
      (output.is_token_cert c o = true →
        output.get_token_cert_address c o = .ok (output.get_script_address pa o) →
        output.check_attachment_address c pa o chain = .ok error.success) ∧
      ((output.is_did_register c o = .ok true ∨ output.is_did_transfer c o = .ok true) →
        output.get_did_address c o = .ok (output.get_script_address pa o) →
        output.check_attachment_address c pa o chain = .ok error.success)) ∧
    output.check_attachment_address c pa o chain
      = output.check_attachment_address c pa o other := by
  refine ⟨check_success_of_untyped c pa o chain, fun hd => ?_, rfl⟩
  obtain ⟨d1, d2, d3, d4, d5, d6⟩ := tags_distinct_facts c hd
  obtain ⟨⟨u1, u2, u3, u4⟩, ⟨w1, w2, w3, w4⟩, ⟨m1, m2, m3, m4⟩⟩ :=
    tags_distinct_plain_facts c hd
  refine ⟨fun hk => ?_, fun hne hk => ?_, fun hk ha => ?_, fun hk ha => ?_, fun hk ha => ?_⟩
  · apply check_success_of_untyped
    rcases hk with hk | hk | hk
    · have ht : o.attach_data.type = c.UCN_TYPE := by simpa [output.is_ucn] using hk
      exact untyped_kinds_false c o (by rw [ht]; exact u1) (by rw [ht]; exact u2)
        (by rw [ht]; exact u3) (by rw [ht]; exact u4)
    · have ht : o.attach_data.type = c.UCN_AWARD_TYPE := by
        simpa [output.is_ucn_award] using hk
      exact untyped_kinds_false c o (by rw [ht]; exact w1) (by rw [ht]; exact w2)
        (by rw [ht]; exact w3) (by rw [ht]; exact w4)
    · have ht : o.attach_data.type = c.MESSAGE_TYPE := by simpa [output.is_message] using hk
      exact untyped_kinds_false c o (by rw [ht]; exact m1) (by rw [ht]; exact m2)
        (by rw [ht]; exact m3) (by rw [ht]; exact m4)
  · obtain ⟨ht, hi, hs⟩ := token_transfer_kind c o hne hk
    obtain ⟨hr, hx⟩ := (did_kind_type c o).2.2.2 (by rw [ht]; exact d3)
    apply check_success_of_untyped
    refine ⟨hi, hs, ?_, ?_, hr, hx⟩
    · simp [output.is_token_mit, ht, d2]
    · simp [output.is_token_cert, ht, d1]
  · rcases hk with hk | hk | hk
    · simp [output.check_attachment_address, hk, ha, bind, Except.bind, pure, Except.pure]
    · have hi := (token_issue_type c o).2.2.1 hk
      simp [output.check_attachment_address, hk, hi, ha, bind, Except.bind, pure, Except.pure]
    · have ht : o.attach_data.type = c.TOKEN_MIT_TYPE := by
        simpa [output.is_token_mit] using hk
      obtain ⟨hi, hs⟩ := (token_issue_type c o).2.2.2 (by rw [ht]; exact Ne.symm d2)
      simp [output.check_attachment_address, hk, hi, hs, ha, bind, Except.bind, pure,
        Except.pure]
  · have ht : o.attach_data.type = c.TOKEN_CERT_TYPE := by
      simpa [output.is_token_cert] using hk
    obtain ⟨hi, hs⟩ := (token_issue_type c o).2.2.2 (by rw [ht]; exact Ne.symm d1)
    have hm : output.is_token_mit c o = false := by
      simp [output.is_token_mit, ht, d4]
    simp [output.check_attachment_address, hk, hi, hs, hm, ha, bind, Except.bind, pure,
      Except.pure]
  · have ht := did_kind_type_of c o hk
    obtain ⟨hi, hs⟩ := (token_issue_type c o).2.2.2 (by rw [ht]; exact Ne.symm d3)
    have hm : output.is_token_mit c o = false := by
      simp [output.is_token_mit, ht, d6]
    have hc : output.is_token_cert c o = false := by
      simp [output.is_token_cert, ht, d5]
    rcases hk with hk | hk
    · simp [output.check_attachment_address, hk, hi, hs, hm, hc, ha, bind, Except.bind,
        pure, Except.pure]
    · obtain ⟨b, hb⟩ := (did_kind_type c o).2.2.1 hk
      cases b <;>
        simp [output.check_attachment_address, hk, hb, hi, hs, hm, hc, ha, bind,
          Except.bind, pure, Except.pure]

/-- C21 at the sample coin output, the sample token transfer and the sample MIT
whose declared address is the script address, with the sample constants. -/
theorem check_attachment_address_complete_witness :
    output.check_attachment_address sample_constants script_bytes_address
        sample_ucn_output () = .ok error.success ∧
    output.check_attachment_address sample_constants script_bytes_address
        sample_transfer_output () = .ok error.success ∧
    output.check_attachment_address sample_constants script_bytes_address
        sample_mit_output () = .ok error.success :=
  ⟨((check_attachment_address_complete sample_constants script_bytes_address
        sample_ucn_output () ()).2.1 (by decide)).1 (Or.inl (by decide)),
    ((check_attachment_address_complete sample_constants script_bytes_address
        sample_transfer_output () ()).2.1 (by decide)).2.1 (by decide) (by decide),
    ((check_attachment_address_complete sample_constants script_bytes_address
        sample_mit_output () ()).2.1 (by decide)).2.2.1 (Or.inr (Or.inr (by decide)))
      (by decide)⟩


/-! ## output: symbol and issuer accessors, claims -/

/-- C22 as stated fails: the sample MIT and the sample cert carry type tags
different from TOKEN_TYPE and get_token_symbol returns their symbols "M" and
"ABC"; and for no constants with TOKEN_MIT_TYPE different from TOKEN_TYPE does
get_token_symbol return the empty string on every non-token output. -/
theorem get_token_symbol_counterexample :
    sample_mit_output.attach_data.type ≠ sample_constants.TOKEN_TYPE ∧
    output.get_token_symbol sample_constants sample_mit_output = .ok [77] ∧
    sample_cert_output.attach_data.type ≠ sample_constants.TOKEN_TYPE ∧
    output.get_token_symbol sample_constants sample_cert_output = .ok [65, 66, 67] ∧
    ¬ ∃ c : constants, c.TOKEN_MIT_TYPE ≠ c.TOKEN_TYPE ∧
      ∀ o : output (List Nat) attachment, o.attach_data.type ≠ c.TOKEN_TYPE →
        output.get_token_symbol c o = .ok [] := by
  refine ⟨by decide, by decide, by decide, by decide, ?_⟩
  rintro ⟨c, hne, h⟩
  have h1 := h { value := 0, script := [],
                 attach_data := attachment.plain c.TOKEN_MIT_TYPE
                   (.token_mit (token_mit.mk [77] [] 0 [])) } hne
  simp [output.get_token_symbol, output.is_token, output.is_token_mit, attachment.plain, hne,
    boost_get_token_mit, bind, Except.bind, pure, Except.pure] at h1

/-- C22 amended: get_token_symbol returns the empty string for every output
whose attachment type is none of TOKEN_TYPE, TOKEN_MIT_TYPE and
TOKEN_CERT_TYPE; for a MIT output it returns the symbol of the MIT and for a
cert output the symbol of the cert. -/
theorem get_token_symbol_default {S : Type} (c : constants) (o : output S attachment) :
    (o.attach_data.type ≠ c.TOKEN_TYPE → o.attach_data.type ≠ c.TOKEN_MIT_TYPE →
      o.attach_data.type ≠ c.TOKEN_CERT_TYPE → output.get_token_symbol c o = .ok []) ∧
    (∀ m, o.attach_data.type ≠ c.TOKEN_TYPE → o.attach_data.type = c.TOKEN_MIT_TYPE →
      o.attach_data.attach = .token_mit m → output.get_token_symbol c o = .ok m.symbol) ∧
    (∀ k, o.attach_data.type ≠ c.TOKEN_TYPE → o.attach_data.type ≠ c.TOKEN_MIT_TYPE →
      o.attach_data.type = c.TOKEN_CERT_TYPE → o.attach_data.attach = .token_cert k →
      output.get_token_symbol c o = .ok k.symbol) := by
  refine ⟨fun h1 h2 h3 => ?_, fun m h1 h2 h3 => ?_, fun k h1 h2 h3 h4 => ?_⟩
  · simp [output.get_token_symbol, output.is_token, output.is_token_mit,
      output.is_token_cert, h1, h2, h3, pure, Except.pure]
  · have e1 : c.TOKEN_MIT_TYPE ≠ c.TOKEN_TYPE := h2 ▸ h1
    simp [output.get_token_symbol, output.is_token, output.is_token_mit, e1, h2, h3,
      boost_get_token_mit, bind, Except.bind, pure, Except.pure]
  · have e1 : c.TOKEN_CERT_TYPE ≠ c.TOKEN_TYPE := h3 ▸ h1
    have e2 : c.TOKEN_CERT_TYPE ≠ c.TOKEN_MIT_TYPE := h3 ▸ h2
    simp [output.get_token_symbol, output.is_token, output.is_token_mit,
      output.is_token_cert, e1, e2, h3, h4, boost_get_token_cert, bind, Except.bind, pure,
      Except.pure]

/-- C22 amended at the sample DID registration with the sample constants. -/
theorem get_token_symbol_default_witness :
    output.get_token_symbol sample_constants (sample_did_output [85]) = .ok [] :=
  (get_token_symbol_default sample_constants (sample_did_output [85])).1
    (by decide) (by decide) (by decide)

/-- C23 as stated fails: on the sample MIT, which is not a token, a build that
keeps assertions ends get_token_issuer in the failed BITCOIN_ASSERT(false); and
for no constants with TOKEN_MIT_TYPE different from TOKEN_TYPE does such a
build return the empty string on every non-token output. -/
theorem get_token_issuer_counterexample :
    sample_mit_output.attach_data.type ≠ sample_constants.TOKEN_TYPE ∧
    output.get_token_issuer true sample_constants sample_mit_output
      = .error failure.assertion ∧
    ¬ ∃ c : constants, c.TOKEN_MIT_TYPE ≠ c.TOKEN_TYPE ∧
      ∀ o : output (List Nat) attachment, o.attach_data.type ≠ c.TOKEN_TYPE →
        output.get_token_issuer true c o = .ok [] := by
  refine ⟨by decide, by decide, ?_⟩
  rintro ⟨c, hne, h⟩
  have h1 := h { value := 0, script := [],
                 attach_data := attachment.plain c.TOKEN_MIT_TYPE
                   (.token_mit (token_mit.mk [77] [] 0 [])) } hne
  simp [output.get_token_issuer, output.is_token, output.is_token_mit, attachment.plain, hne,
    BITCOIN_ASSERT, bind, Except.bind] at h1

/-- C23 amended: get_token_issuer returns the issuer of the detail for a token
with status TOKEN_DETAIL_TYPE, and the empty string, raising nothing, for a
token with any other status and for every output that is neither a token nor a
MIT; on a MIT output it reaches BITCOIN_ASSERT(false), which fails in a build
that keeps assertions and otherwise lets the empty string be returned. -/
theorem get_token_issuer_semantics {S : Type} (assertions : Bool) (c : constants)
    (o : output S attachment) :
    (∀ t d, o.attach_data.type = c.TOKEN_TYPE → o.attach_data.attach = .token t →
      t.status = c.TOKEN_DETAIL_TYPE → t.data = .detail d →
      output.get_token_issuer assertions c o = .ok d.issuer) ∧
    (∀ t, o.attach_data.type = c.TOKEN_TYPE → o.attach_data.attach = .token t →
      t.status ≠ c.TOKEN_DETAIL_TYPE → output.get_token_issuer assertions c o = .ok []) ∧
    (o.attach_data.type ≠ c.TOKEN_TYPE → o.attach_data.type ≠ c.TOKEN_MIT_TYPE →
      output.get_token_issuer assertions c o = .ok []) ∧
    (o.attach_data.type ≠ c.TOKEN_TYPE → o.attach_data.type = c.TOKEN_MIT_TYPE →
      output.get_token_issuer assertions c o
        = if assertions then .error failure.assertion else .ok []) := by
  refine ⟨fun t d h1 h2 h3 h4 => ?_, fun t h1 h2 h3 => ?_, fun h1 h2 => ?_, fun h1 h2 => ?_⟩
  · simp [output.get_token_issuer, output.is_token, h1, h2, h3, h4, boost_get_token,
      boost_get_token_detail, bind, Except.bind, pure, Except.pure]
  · simp [output.get_token_issuer, output.is_token, h1, h2, h3, boost_get_token, bind,
      Except.bind, pure, Except.pure]
  · simp [output.get_token_issuer, output.is_token, output.is_token_mit, h1, h2, pure,
      Except.pure]
  · have e1 : c.TOKEN_MIT_TYPE ≠ c.TOKEN_TYPE := h2 ▸ h1
    cases assertions <;>
      simp [output.get_token_issuer, output.is_token, output.is_token_mit, e1, h2,
        BITCOIN_ASSERT, bind, Except.bind, pure, Except.pure]

/-- C23 amended at the sample issue (issuer "I"), the sample transfer and the
sample cert with the sample constants, in a build that keeps assertions. -/
theorem get_token_issuer_semantics_witness :
    output.get_token_issuer true sample_constants (sample_issue_output 0 [85]) = .ok [73] ∧
    output.get_token_issuer true sample_constants sample_transfer_output = .ok [] ∧
    output.get_token_issuer true sample_constants sample_cert_output = .ok [] :=
  ⟨(get_token_issuer_semantics true sample_constants (sample_issue_output 0 [85])).1 _ _
      rfl rfl rfl rfl,
    (get_token_issuer_semantics true sample_constants sample_transfer_output).2.1 _
      rfl rfl (by decide),
    (get_token_issuer_semantics true sample_constants sample_cert_output).2.2.1
      (by decide) (by decide)⟩


/-! ## did_detail: validity, setters and order, claims -/

theorem count_size_replicate (n : Nat) :
    did_detail.count_size { symbol := List.replicate n 65, address := [] }
      = (n + 0 + 2) % 2 ^ 32 := by
  simp only [did_detail.count_size, List.length_replicate, List.length_nil]

theorem is_valid_replicate (fix n : Nat) (hn : 0 < n) (h : (n + 0 + 2) % 2 ^ 32 ≤ fix) :
    did_detail.is_valid fix { symbol := List.replicate n 65, address := [] } = true := by
  have hc := count_size_replicate n
  have he : (List.replicate n 65 : List Nat).isEmpty = false := by
    cases n with
    | zero => exact absurd hn (by decide)
    | succ k => rfl
  simp only [did_detail.is_valid, hc, he, Bool.false_or, Bool.not_eq_true',
    decide_eq_false_iff_not]
  omega

/-- Where count_size does not wrap: when |symbol| + |address| + 2 is below 2^32,
is_valid is true exactly when the symbol is non-empty and |symbol| + |address|
+ 2 is at most DID_DETAIL_FIX_SIZE. -/
theorem did_detail_is_valid_iff_small (fix : Nat) (d : did_detail)
    (h : d.symbol.length + d.address.length + 2 < 2 ^ 32) :
    did_detail.is_valid fix d = true ↔
      d.symbol ≠ [] ∧ d.symbol.length + d.address.length + 2 ≤ fix := by
  have hc : d.count_size = d.symbol.length + d.address.length + 2 := by
    simp only [did_detail.count_size]
    exact Nat.mod_eq_of_lt h
  simp only [did_detail.is_valid, hc, Bool.not_eq_true', Bool.or_eq_false_iff,
    List.isEmpty_eq_false, decide_eq_false_iff_not, ne_eq, not_lt, gt_iff_lt]

/-- C24 at a symbol of 4294967295 bytes with an empty address and a limit of
128: count_size, a 32-bit value, wraps to 1 and is_valid returns true although
|symbol| + |address| + 2 exceeds the limit. -/
theorem did_detail_is_valid_wraps :
    (List.replicate 4294967295 65 : List Nat).length = 4294967295 ∧
    did_detail.count_size { symbol := List.replicate 4294967295 65, address := [] } = 1 ∧
    did_detail.is_valid 128 { symbol := List.replicate 4294967295 65, address := [] }
      = true :=
  ⟨List.length_replicate _ _, (count_size_replicate 4294967295).trans (by norm_num),
    is_valid_replicate 128 4294967295 (by norm_num) (by norm_num)⟩

theorem take_clamp (s : List Nat) (fix : Nat) (hs : s.length + 1 < 2 ^ 64) :
    s.take (min ((s.length + 1) % 2 ^ 64) fix) = s.take (min s.length fix) := by
  rw [Nat.mod_eq_of_lt hs, List.take_eq_take]
  omega

theorem is_valid_did_symbol_length (c : constants) (is_sensitive : List Nat → Bool)
    (s : List Nat) (flag : Bool)
    (hv : output.is_valid_did_symbol c is_sensitive s flag = true) :
    s.length ≤ c.DID_DETAIL_SYMBOL_FIX_SIZE := by
  by_contra hc
  have hgt : s.length > c.DID_DETAIL_SYMBOL_FIX_SIZE := by omega
  unfold output.is_valid_did_symbol at hv
  simp only [hgt, if_true] at hv
  split_ifs at hv

/-- C25: for a string within the size type, set_symbol stores the initial part
of s of length min(|s|, DID_DETAIL_SYMBOL_FIX_SIZE) and leaves the address,
and set_address stores the initial part of s of length
min(|s|, DID_DETAIL_ADDRESS_FIX_SIZE) and leaves the symbol. -/
theorem did_detail_setters_clamp (fs fa : Nat) (d : did_detail) (s : List Nat)
    (hs : s.length + 1 < 2 ^ 64) :
    ((did_detail.set_symbol fs d s).symbol = s.take (min s.length fs) ∧
      (did_detail.set_symbol fs d s).symbol.length = min s.length fs ∧
      (did_detail.set_symbol fs d s).address = d.address) ∧
    ((did_detail.set_address fa d s).address = s.take (min s.length fa) ∧
      (did_detail.set_address fa d s).address.length = min s.length fa ∧
      (did_detail.set_address fa d s).symbol = d.symbol) := by
  have h1 := take_clamp s fs hs
  have h2 := take_clamp s fa hs
  refine ⟨⟨?_, ?_, rfl⟩, ⟨?_, ?_, rfl⟩⟩
  · simp only [did_detail.set_symbol, h1]
  · simp only [did_detail.set_symbol, h1, List.length_take]
    omega
  · simp only [did_detail.set_address, h2]
  · simp only [did_detail.set_address, h2, List.length_take]
    omega

/-- C25 at "ABCDE" with both limits 3: "ABC" is stored, the other field is
kept. -/
theorem did_detail_setters_clamp_witness :
    (did_detail.set_symbol 3 { symbol := [1], address := [2] } [65, 66, 67, 68, 69]).symbol
      = [65, 66, 67] ∧
    (did_detail.set_symbol 3 { symbol := [1], address := [2] } [65, 66, 67, 68, 69]).address
      = [2] ∧
    (did_detail.set_address 3 { symbol := [1], address := [2] } [65, 66, 67, 68, 69]).address
      = [65, 66, 67] :=
  ⟨(did_detail_setters_clamp 3 3 { symbol := [1], address := [2] } [65, 66, 67, 68, 69]
      (by decide)).1.1,
    by decide, by decide⟩

/-- C26: for a string within the size type that is_valid_did_symbol accepts,
set_symbol followed by get_symbol returns exactly that string. -/
theorem set_symbol_keeps_valid_symbol (c : constants) (is_sensitive : List Nat → Bool)
    (s : List Nat) (flag : Bool) (d : did_detail) (hs : s.length + 1 < 2 ^ 64)
    (hv : output.is_valid_did_symbol c is_sensitive s flag = true) :
    (did_detail.set_symbol c.DID_DETAIL_SYMBOL_FIX_SIZE d s).get_symbol = s := by
  have hl := is_valid_did_symbol_length c is_sensitive s flag hv
  simp only [did_detail.get_symbol, did_detail.set_symbol, take_clamp s _ hs]
  exact List.take_of_length_le (by omega)

/-- C26 at "A.b" with the sample constants and an empty sensitive list. -/
theorem set_symbol_keeps_valid_symbol_witness :
    output.is_valid_did_symbol sample_constants (fun _ => false) [65, 46, 98] true = true ∧
    (did_detail.set_symbol sample_constants.DID_DETAIL_SYMBOL_FIX_SIZE
        { symbol := [1], address := [2] } [65, 46, 98]).get_symbol = [65, 46, 98] :=
  ⟨by decide,
    set_symbol_keeps_valid_symbol sample_constants (fun _ => false) [65, 46, 98] true
      { symbol := [1], address := [2] } (by decide) (by decide)⟩


theorem string_compare_self (a : List Nat) : string_compare a a = 0 := by
  induction a with
  | nil => rfl
  | cons x xs ih => simp [string_compare, ih]

theorem string_compare_eq_zero (a b : List Nat) (h : string_compare a b = 0) : a = b := by
  induction a generalizing b with
  | nil => cases b with
    | nil => rfl
    | cons y ys => simp [string_compare] at h
  | cons x xs ih => cases b with
    | nil => simp [string_compare] at h
    | cons y ys =>
      simp only [string_compare] at h
      by_cases h1 : x < y
      · simp [h1] at h
      · by_cases h2 : y < x
        · simp [h1, h2] at h
        · simp only [h1, h2, if_false] at h
          have hxy : x = y := by omega
          rw [hxy, ih ys h]

theorem string_compare_swap (a b : List Nat) :
    string_compare a b < 0 ↔ 0 < string_compare b a := by
  induction a generalizing b with
  | nil => cases b <;> simp [string_compare]
  | cons x xs ih => cases b with
    | nil => simp [string_compare]
    | cons y ys =>
      simp only [string_compare]
      split_ifs <;> first | omega | simp | exact ih ys

theorem string_compare_trans (a b c : List Nat) (h1 : string_compare a b < 0)
    (h2 : string_compare b c < 0) : string_compare a c < 0 := by
  induction a generalizing b c with
  | nil => cases c with
    | nil => cases b <;> simp [string_compare] at h1 h2
    | cons z zs => simp [string_compare]
  | cons x xs ih => cases b with
    | nil => simp [string_compare] at h1
    | cons y ys => cases c with
      | nil => simp [string_compare] at h2
      | cons z zs =>
        simp only [string_compare] at h1 h2 ⊢
        split_ifs at h1 h2 ⊢ <;> first | omega | simp | exact ih ys zs h1 h2

theorem string_compare_lt_iff (a b : List Nat) : string_compare a b < 0 ↔ List.lt a b := by
  induction a generalizing b with
  | nil => cases b with
    | nil => simp [string_compare]; intro h; cases h
    | cons y ys => simp [string_compare]; exact List.lt.nil y ys
  | cons x xs ih => cases b with
    | nil => simp [string_compare]; intro h; cases h
    | cons y ys =>
      simp only [string_compare]
      constructor
      · intro h
        by_cases h1 : x < y
        · exact List.lt.head xs ys h1
        · by_cases h2 : y < x
          · simp [h1, h2] at h
          · simp only [h1, h2, if_false] at h
            exact List.lt.tail h1 h2 ((ih ys).1 h)
      · intro h
        cases h with
        | head _ _ hlt => simp [hlt]
        | tail h1 h2 hr => simp [h1, h2, (ih ys).2 hr]

theorem operator_lt_iff (a b : did_detail) :
    did_detail.operator_lt a b = true ↔
      string_compare a.symbol b.symbol < 0 ∨
        (string_compare a.symbol b.symbol = 0 ∧ string_compare a.address b.address < 0) := by
  simp [did_detail.operator_lt]

/-- C27: operator< of did_detail is irreflexive and transitive, for any two
records exactly one of a < b, b < a and equality of both fields holds, and
a < b exactly when the symbol of a is before that of b in the lexicographic
order of byte strings, or the symbols are equal and the address of a is before
that of b. -/
theorem operator_lt_strict_order :
    (∀ a : did_detail, did_detail.operator_lt a a = false) ∧
    (∀ a b c : did_detail, did_detail.operator_lt a b = true →
      did_detail.operator_lt b c = true → did_detail.operator_lt a c = true) ∧
    (∀ a b : did_detail,
      (did_detail.operator_lt a b = true ∧ did_detail.operator_lt b a = false ∧
        ¬ (a.symbol = b.symbol ∧ a.address = b.address)) ∨
      (did_detail.operator_lt a b = false ∧ did_detail.operator_lt b a = true ∧
        ¬ (a.symbol = b.symbol ∧ a.address = b.address)) ∨
      (did_detail.operator_lt a b = false ∧ did_detail.operator_lt b a = false ∧
        a.symbol = b.symbol ∧ a.address = b.address)) ∧
    (∀ a b : did_detail, did_detail.operator_lt a b = true ↔
      List.lt a.symbol b.symbol ∨ (a.symbol = b.symbol ∧ List.lt a.address b.address)) := by
  refine ⟨fun a => ?_, fun a b c hab hbc => ?_, fun a b => ?_, fun a b => ?_⟩
  · rw [Bool.eq_false_iff]
    intro h
    rw [operator_lt_iff, string_compare_self, string_compare_self] at h
    omega
  · rw [operator_lt_iff] at hab hbc ⊢
    rcases hab with h1 | ⟨h1, h2⟩ <;> rcases hbc with h3 | ⟨h3, h4⟩
    · exact Or.inl (string_compare_trans _ _ _ h1 h3)
    · rw [← string_compare_eq_zero _ _ h3]
      exact Or.inl h1
    · rw [string_compare_eq_zero _ _ h1]
      exact Or.inl h3
    · rw [string_compare_eq_zero _ _ h1, string_compare_eq_zero _ _ h3, string_compare_self]
      exact Or.inr ⟨rfl, string_compare_trans _ _ _ h2 h4⟩
  · have s1 := string_compare_swap a.symbol b.symbol
    have s2 := string_compare_swap b.symbol a.symbol
    have t1 := string_compare_swap a.address b.address
    have t2 := string_compare_swap b.address a.address
    have e1 := string_compare_eq_zero a.symbol b.symbol
    have e2 := string_compare_eq_zero a.address b.address
    have hf : ∀ x y : did_detail, did_detail.operator_lt x y = false ↔
        ¬ (string_compare x.symbol y.symbol < 0 ∨
          (string_compare x.symbol y.symbol = 0 ∧ string_compare x.address y.address < 0)) := by
      intro x y
      rw [← operator_lt_iff, Bool.not_eq_true]
    rw [operator_lt_iff, operator_lt_iff, hf, hf]
    by_cases hs : a.symbol = b.symbol
    · have z1 : string_compare a.symbol b.symbol = 0 := by rw [hs, string_compare_self]
      have z2 : string_compare b.symbol a.symbol = 0 := by rw [hs, string_compare_self]
      by_cases ha : a.address = b.address
      · have z3 : string_compare a.address b.address = 0 := by rw [ha, string_compare_self]
        have z4 : string_compare b.address a.address = 0 := by rw [ha, string_compare_self]
        right; right
        refine ⟨by omega, by omega, hs, ha⟩
      · have n3 : string_compare a.address b.address ≠ 0 := fun h => ha (e2 h)
        rcases lt_or_gt_of_ne n3 with h | h
        · left
          exact ⟨Or.inr ⟨z1, h⟩, by omega, fun hh => ha hh.2⟩
        · right; left
          exact ⟨by omega, Or.inr ⟨z2, t2.2 h⟩, fun hh => ha hh.2⟩
    · have n1 : string_compare a.symbol b.symbol ≠ 0 := fun h => hs (e1 h)
      rcases lt_or_gt_of_ne n1 with h | h
      · left
        exact ⟨Or.inl h, by omega, fun hh => hs hh.1⟩
      · right; left
        exact ⟨by omega, Or.inl (s2.2 h), fun hh => hs hh.1⟩
  · rw [operator_lt_iff, string_compare_lt_iff, string_compare_lt_iff]
    constructor
    · rintro (h | ⟨h1, h2⟩)
      · exact Or.inl h
      · exact Or.inr ⟨string_compare_eq_zero _ _ h1, h2⟩
    · rintro (h | ⟨h1, h2⟩)
      · exact Or.inl h
      · exact Or.inr ⟨by rw [h1, string_compare_self], h2⟩

end UChain
